import Mathlib

/-!
Shallow embedding of the purepyindi2 INDI protocol runtime
(`purepyindi2/constants.py`, `messages.py`, `parser.py`, `properties.py`,
`client.py`, `transports.py`) used to settle the claims about the
message model, the streaming parser, the switch-rule wrapper, the
client replica and callback dispatch.

Modelling boundary (documented once here):

* XML is modelled at the SAX-event level.  `MessageBase.to_xml_bytes`
  builds an `ElementTree` element and renders it; the expat parser turns
  bytes back into start-element / character-data / end-element events.
  `ElementTree.tostring` and expat are inverse external libraries, so we
  model a message's serialization as the XML tree it builds
  (`to_xml_element`) and the event stream of that tree, and we run the
  stream parser's handlers (`start_xml_element_handler`,
  `character_data_handler`, `end_xml_element_handler`) on event streams.

* Python `float` values are represented by their canonical
  `str(float)` rendering, which is a whitespace-free non-empty string;
  `str` on a float is the identity on that representation and `float`
  applied to a canonical representation returns the same float
  (CPython guarantees the `float(str(x)) == x` round trip).

* Python `datetime` values are represented by their UTC ISO-8601
  rendering (`constants.ISO_TIMESTAMP_FORMAT`); `format_datetime_as_iso`
  is the identity on that representation and `parse_optional_timestamp`
  wraps it back up (the `strftime`/`strptime` round trip for aware UTC
  datetimes with microsecond precision).

* `str.strip()` is modelled by `pyStrip` over the character list.

Python exceptions escaping a function are modelled with `Except`: an
`Except.error` value means the Python call raises.
-/

/-- Python `str.strip()` whitespace test for the characters that occur on
the INDI wire (space, tab, newline, carriage return). -/
def isPySpace (c : Char) : Bool := c = ' ' || c = '\t' || c = '\n' || c = '\r'

/-- Python `str.strip()`: drop leading and trailing whitespace. -/
def pyStrip (s : String) : String :=
  ⟨((s.data.dropWhile isPySpace).reverse.dropWhile isPySpace).reverse⟩

/-- Python float values, represented by their canonical `str(float)`
rendering (non-empty, whitespace-free).  See the module docstring. -/
abbrev PyFloat := {s : String // pyStrip s = s ∧ s ≠ ""}

/-- Python `str(x)` for a float `x`: the canonical rendering itself. -/
def pyFloatStr (f : PyFloat) : String := f.val

/-- Python `float(s)` restricted to the canonical renderings that occur
in the round-trip claims: returns the float a canonical rendering
denotes, `Except.error` (Python `ValueError`) otherwise. -/
def pyFloatOfString (s : String) : Except String PyFloat :=
  if h : pyStrip s = s ∧ s ≠ "" then .ok ⟨s, h⟩
  else .error "ValueError: could not convert string to float"

/-- Python timezone-aware UTC datetimes, represented by their ISO-8601
rendering with microsecond precision (see the module docstring). -/
structure Timestamp where
  iso : String
deriving DecidableEq, Repr

/-- The `constants.PropertyState` enum. -/
inductive PropertyState | IDLE | OK | BUSY | ALERT
deriving DecidableEq, Repr

/-- Wire value of a `PropertyState` (`constants.py` lines 77-81). -/
def PropertyState.value : PropertyState → String
  | .IDLE => "Idle"
  | .OK => "Ok"
  | .BUSY => "Busy"
  | .ALERT => "Alert"

/-- The `constants.PropertyPerm` enum. -/
inductive PropertyPerm | READ_ONLY | WRITE_ONLY | READ_WRITE
deriving DecidableEq, Repr

/-- Wire value of a `PropertyPerm` (`constants.py` lines 83-86). -/
def PropertyPerm.value : PropertyPerm → String
  | .READ_ONLY => "ro"
  | .WRITE_ONLY => "wo"
  | .READ_WRITE => "rw"

/-- The `constants.SwitchState` enum. -/
inductive SwitchState | OFF | ON
deriving DecidableEq, Repr

/-- Wire value of a `SwitchState` (`constants.py` lines 95-99). -/
def SwitchState.value : SwitchState → String
  | .OFF => "Off"
  | .ON => "On"

/-- The `constants.SwitchRule` enum. -/
inductive SwitchRule | ONE_OF_MANY | AT_MOST_ONE | ANY_OF_MANY
deriving DecidableEq, Repr

/-- Wire value of a `SwitchRule` (`constants.py` lines 101-104). -/
def SwitchRule.value : SwitchRule → String
  | .ONE_OF_MANY => "OneOfMany"
  | .AT_MOST_ONE => "AtMostOne"
  | .ANY_OF_MANY => "AnyOfMany"

/-- The `constants.ConnectionStatus` enum. -/
inductive ConnectionStatus | CONNECTING | CONNECTED | STOPPED | ERROR | NOT_CONFIGURED
deriving DecidableEq, Repr

/-- `constants.parse_string_into_enum(string, PropertyState)`: scan the
members in declaration order and return the one whose `.value` equals
the string; `ValueError` (modelled as `Except.error`) otherwise. -/
def parsePropertyState (s : String) : Except String PropertyState :=
  if s = "Idle" then .ok .IDLE
  else if s = "Ok" then .ok .OK
  else if s = "Busy" then .ok .BUSY
  else if s = "Alert" then .ok .ALERT
  else .error "ValueError: no enum instance in PropertyState"

/-- `constants.parse_string_into_enum(string, PropertyPerm)`. -/
def parsePropertyPerm (s : String) : Except String PropertyPerm :=
  if s = "ro" then .ok .READ_ONLY
  else if s = "wo" then .ok .WRITE_ONLY
  else if s = "rw" then .ok .READ_WRITE
  else .error "ValueError: no enum instance in PropertyPerm"

/-- `constants.parse_string_into_enum(string, SwitchState)`. -/
def parseSwitchState (s : String) : Except String SwitchState :=
  if s = "Off" then .ok .OFF
  else if s = "On" then .ok .ON
  else .error "ValueError: no enum instance in SwitchState"

/-- `constants.parse_string_into_enum(string, SwitchRule)`. -/
def parseSwitchRule (s : String) : Except String SwitchRule :=
  if s = "OneOfMany" then .ok .ONE_OF_MANY
  else if s = "AtMostOne" then .ok .AT_MOST_ONE
  else if s = "AnyOfMany" then .ok .ANY_OF_MANY
  else .error "ValueError: no enum instance in SwitchRule"

/-- An `xml.etree.ElementTree.Element` as built by
`MessageBase.to_xml_element`: tag, attributes in insertion order, body
text (`""` both for unset and empty text, matching how `tostring`
renders them identically), and child elements. -/
structure XmlTree where
  tag : String
  attrs : List (String × String)
  text : String
  children : List XmlTree
deriving Repr

/-- A SAX event as delivered by expat to `IndiStreamParser`'s handlers. -/
inductive XmlEvent
  | startElement (tag : String) (attrs : List (String × String))
  | charData (s : String)
  | endElement (tag : String)
deriving DecidableEq, Repr

/-- Event stream of an XML tree: what expat delivers when fed
`ElementTree.tostring` of the tree (no character-data event for empty
text, since `tostring` emits nothing there). -/
def treeEvents (t : XmlTree) : List XmlEvent :=
  [XmlEvent.startElement t.tag t.attrs]
    ++ (if t.text = "" then [] else [XmlEvent.charData t.text])
    ++ (t.children.attach.map (fun c => treeEvents c.val)).flatten
    ++ [XmlEvent.endElement t.tag]
decreasing_by
  have := c.property
  calc sizeOf c.val < sizeOf t.children := List.sizeOf_lt_of_mem this
    _ < sizeOf t := by cases t; simp; try omega

/-- Value slot of a `OneLight`/`DefLight`.  The dataclass annotates it as
`PropertyState` and `validate` checks for `PropertyState`, but
`OneLight.value_from_text` (messages.py line 190) parses body text with
`SwitchState`, so a parsed light element can also hold a `SwitchState`;
the sum keeps both possibilities, `.inl` for `PropertyState`. -/
abbrev LightValue := PropertyState ⊕ SwitchState

/-- Rendering of a stored light value (`ValueMessageBase.to_xml_element`
renders an `Enum` value via `.value`). -/
def lightValueText : LightValue → String
  | .inl p => p.value
  | .inr s => s.value

/-- The `IndiElementMessage` union (`messages.py` lines 501-503): the
eight child-element messages, with the fields of each dataclass.
`name` has default `None` in the source but every element reachable
through `add_element` or the parser carries one, so it is a `String`
here; `value` is the `_value` slot (`None` = unset). -/
inductive IndiElementMessage
  | oneText (name : String) (value : Option String)
  | oneNumber (name : String) (value : Option PyFloat)
  | oneSwitch (name : String) (value : Option SwitchState)
  | oneLight (name : String) (value : Option LightValue)
  | defText (name : String) (value : Option String) (label : Option String)
  | defNumber (name : String) (value : Option PyFloat) (label : Option String)
      (format : String) (min max step : PyFloat)
  | defSwitch (name : String) (value : Option SwitchState) (label : Option String)
  | defLight (name : String) (value : Option LightValue) (label : Option String)
deriving DecidableEq, Repr

namespace IndiElementMessage

/-- The `name` attribute of an element message. -/
def name : IndiElementMessage → String
  | oneText n _ => n
  | oneNumber n _ => n
  | oneSwitch n _ => n
  | oneLight n _ => n
  | defText n _ _ => n
  | defNumber n _ _ _ _ _ _ => n
  | defSwitch n _ _ => n
  | defLight n _ _ => n

/-- The XML tag of an element message (`MessageBase.tag()`: class name
with the first letter lowercased). -/
def tag : IndiElementMessage → String
  | oneText _ _ => "oneText"
  | oneNumber _ _ => "oneNumber"
  | oneSwitch _ _ => "oneSwitch"
  | oneLight _ _ => "oneLight"
  | defText _ _ _ => "defText"
  | defNumber _ _ _ _ _ _ _ => "defNumber"
  | defSwitch _ _ _ => "defSwitch"
  | defLight _ _ _ => "defLight"

end IndiElementMessage

/-- Attribute list contribution of one optional dataclass field:
`to_xml_element` skips attributes whose value is `None`. -/
def optAttr (k : String) : Option String → List (String × String)
  | none => []
  | some v => [(k, v)]

namespace IndiElementMessage

/-- Attributes emitted by `to_xml_element` for an element message, in
dataclass field order, skipping underscore fields and `None` values. -/
def xmlAttrs : IndiElementMessage → List (String × String)
  | oneText n _ => [("name", n)]
  | oneNumber n _ => [("name", n)]
  | oneSwitch n _ => [("name", n)]
  | oneLight n _ => [("name", n)]
  | defText n _ lab => ("name", n) :: optAttr "label" lab
  | defNumber n _ lab fmt mn mx st =>
      ("name", n) :: (optAttr "label" lab
        ++ [("format", fmt), ("min", pyFloatStr mn), ("max", pyFloatStr mx),
            ("step", pyFloatStr st)])
  | defSwitch n _ lab => ("name", n) :: optAttr "label" lab
  | defLight n _ lab => ("name", n) :: optAttr "label" lab

/-- Body text emitted by `ValueMessageBase.to_xml_element`: an `Enum`
value renders via `.value`, a non-`None` value via `str`, `None` as
the empty string. -/
def xmlText : IndiElementMessage → String
  | oneText _ v => v.getD ""
  | oneNumber _ v => (v.map pyFloatStr).getD ""
  | oneSwitch _ v => (v.map SwitchState.value).getD ""
  | oneLight _ v => (v.map lightValueText).getD ""
  | defText _ v _ => v.getD ""
  | defNumber _ v _ _ _ _ _ => (v.map pyFloatStr).getD ""
  | defSwitch _ v _ => (v.map SwitchState.value).getD ""
  | defLight _ v _ => (v.map lightValueText).getD ""

/-- The XML tree built by `to_xml_element` for an element message. -/
def toXmlElement (e : IndiElementMessage) : XmlTree :=
  ⟨e.tag, e.xmlAttrs, e.xmlText, []⟩

/-- `ValueMessageBase.set_from_text`: `None` clears the value, otherwise
the class's `value_from_text` converts the text (`Except.error` = the
Python call raises `ValueError`).  `OneText`/`DefText` inherit the
identity `value_from_text`; `OneNumber`/`DefNumber` use `float`;
`OneSwitch`/`DefSwitch` parse a `SwitchState`; `OneLight`/`DefLight`
also parse a `SwitchState` (messages.py line 190). -/
def setFromText (e : IndiElementMessage) (contents : Option String) :
    Except String IndiElementMessage :=
  match e, contents with
  | oneText n _, none => .ok (oneText n none)
  | oneText n _, some s => .ok (oneText n (some s))
  | oneNumber n _, none => .ok (oneNumber n none)
  | oneNumber n _, some s => do pure (oneNumber n (some (← pyFloatOfString s)))
  | oneSwitch n _, none => .ok (oneSwitch n none)
  | oneSwitch n _, some s => do pure (oneSwitch n (some (← parseSwitchState s)))
  | oneLight n _, none => .ok (oneLight n none)
  | oneLight n _, some s => do pure (oneLight n (some (.inr (← parseSwitchState s))))
  | defText n _ lab, none => .ok (defText n none lab)
  | defText n _ lab, some s => .ok (defText n (some s) lab)
  | defNumber n _ lab fmt mn mx st, none => .ok (defNumber n none lab fmt mn mx st)
  | defNumber n _ lab fmt mn mx st, some s =>
      do pure (defNumber n (some (← pyFloatOfString s)) lab fmt mn mx st)
  | defSwitch n _ lab, none => .ok (defSwitch n none lab)
  | defSwitch n _ lab, some s => do pure (defSwitch n (some (← parseSwitchState s)) lab)
  | defLight n _ lab, none => .ok (defLight n none lab)
  | defLight n _ lab, some s => do pure (defLight n (some (.inr (← parseSwitchState s))) lab)

end IndiElementMessage

/-- Field layout shared by `DefTextVector` and `DefNumberVector`
(`PropertyMessageBase` + `DefSetMessageBase` + `DefVector` +
`DefSettableVector`), with `_elements` as a list in insertion order.
`state` is not optional for a def vector. -/
structure DefSettableVectorData where
  device : String
  name : String
  timestamp : Option Timestamp := none
  elements : List IndiElementMessage := []
  timeout : Option String := none
  message : Option String := none
  state : PropertyState := .OK
  label : Option String := none
  group : Option String := none
  perm : PropertyPerm
deriving DecidableEq, Repr

/-- `DefSwitchVector`: the settable layout plus the mandatory `rule`. -/
structure DefSwitchVectorData where
  device : String
  name : String
  timestamp : Option Timestamp := none
  elements : List IndiElementMessage := []
  timeout : Option String := none
  message : Option String := none
  state : PropertyState := .OK
  label : Option String := none
  group : Option String := none
  perm : PropertyPerm
  rule : SwitchRule
deriving DecidableEq, Repr

/-- `DefLightVector`: a def vector without `perm`. -/
structure DefLightVectorData where
  device : String
  name : String
  timestamp : Option Timestamp := none
  elements : List IndiElementMessage := []
  timeout : Option String := none
  message : Option String := none
  state : PropertyState := .OK
  label : Option String := none
  group : Option String := none
deriving DecidableEq, Repr

/-- Field layout of the four `Set*Vector` classes.  `label` and `group`
exist on the dataclass but `SetVector.__post_init__` rejects non-`None`
values, so reachable set vectors never carry them and they are omitted
here. -/
structure SetVectorData where
  device : String
  name : String
  timestamp : Option Timestamp := none
  elements : List IndiElementMessage := []
  timeout : Option String := none
  message : Option String := none
  state : Option PropertyState := none
deriving DecidableEq, Repr

/-- Field layout of the three `New*Vector` classes
(`PropertyMessageBase` only). -/
structure NewVectorData where
  device : String
  name : String
  timestamp : Option Timestamp := none
  elements : List IndiElementMessage := []
deriving DecidableEq, Repr

/-- The `Message` dataclass (device-to-client diagnostic text). -/
structure MessageData where
  message : String
  device : Option String := none
  timestamp : Option Timestamp := none
deriving DecidableEq, Repr

/-- The `DelProperty` dataclass: every attribute optional. -/
structure DelPropertyData where
  device : Option String := none
  name : Option String := none
  timestamp : Option Timestamp := none
  message : Option String := none
deriving DecidableEq, Repr

/-- The `GetProperties` dataclass.  `version` defaults to the protocol
version string on construction; the parser re-creates it from the
optional `version` attribute, hence `Option`. -/
structure GetPropertiesData where
  device : Option String := none
  name : Option String := none
  version : Option String := some "1.7"
deriving DecidableEq, Repr

/-- The `IndiTopLevelMessage` union (`messages.py` lines 467-482): the
fourteen messages that can appear at the top level of the stream. -/
inductive Msg
  | defTextVector (v : DefSettableVectorData)
  | defNumberVector (v : DefSettableVectorData)
  | defSwitchVector (v : DefSwitchVectorData)
  | defLightVector (v : DefLightVectorData)
  | setTextVector (v : SetVectorData)
  | setNumberVector (v : SetVectorData)
  | setSwitchVector (v : SetVectorData)
  | setLightVector (v : SetVectorData)
  | message (m : MessageData)
  | delProperty (m : DelPropertyData)
  | getProperties (m : GetPropertiesData)
  | newTextVector (v : NewVectorData)
  | newNumberVector (v : NewVectorData)
  | newSwitchVector (v : NewVectorData)
deriving DecidableEq, Repr

namespace Msg

/-- Attributes of a settable def vector in dataclass field order
(`device, name, timestamp, timeout, message, state, label, group,
perm`), skipping `None` values (`MessageBase.to_xml_element`). -/
def defSettableAttrs (v : DefSettableVectorData) : List (String × String) :=
  ("device", v.device) :: ("name", v.name)
    :: (optAttr "timestamp" (v.timestamp.map Timestamp.iso)
      ++ optAttr "timeout" v.timeout
      ++ optAttr "message" v.message
      ++ [("state", v.state.value)]
      ++ optAttr "label" v.label
      ++ optAttr "group" v.group
      ++ [("perm", v.perm.value)])

/-- Attributes of a `DefSwitchVector` (the settable layout plus `rule`). -/
def defSwitchAttrs (v : DefSwitchVectorData) : List (String × String) :=
  ("device", v.device) :: ("name", v.name)
    :: (optAttr "timestamp" (v.timestamp.map Timestamp.iso)
      ++ optAttr "timeout" v.timeout
      ++ optAttr "message" v.message
      ++ [("state", v.state.value)]
      ++ optAttr "label" v.label
      ++ optAttr "group" v.group
      ++ [("perm", v.perm.value), ("rule", v.rule.value)])

/-- Attributes of a `DefLightVector` (no `perm`). -/
def defLightAttrs (v : DefLightVectorData) : List (String × String) :=
  ("device", v.device) :: ("name", v.name)
    :: (optAttr "timestamp" (v.timestamp.map Timestamp.iso)
      ++ optAttr "timeout" v.timeout
      ++ optAttr "message" v.message
      ++ [("state", v.state.value)]
      ++ optAttr "label" v.label
      ++ optAttr "group" v.group)

/-- Attributes of a `Set*Vector` (`label`/`group` are always `None`). -/
def setAttrs (v : SetVectorData) : List (String × String) :=
  ("device", v.device) :: ("name", v.name)
    :: (optAttr "timestamp" (v.timestamp.map Timestamp.iso)
      ++ optAttr "timeout" v.timeout
      ++ optAttr "message" v.message
      ++ optAttr "state" (v.state.map PropertyState.value))

/-- Attributes of a `New*Vector`. -/
def newAttrs (v : NewVectorData) : List (String × String) :=
  ("device", v.device) :: ("name", v.name)
    :: optAttr "timestamp" (v.timestamp.map Timestamp.iso)

/-- Attributes of a `Message` (field order `message, device, timestamp`). -/
def messageAttrs (m : MessageData) : List (String × String) :=
  ("message", m.message)
    :: (optAttr "device" m.device ++ optAttr "timestamp" (m.timestamp.map Timestamp.iso))

/-- Attributes of a `DelProperty`. -/
def delAttrs (m : DelPropertyData) : List (String × String) :=
  optAttr "device" m.device ++ optAttr "name" m.name
    ++ optAttr "timestamp" (m.timestamp.map Timestamp.iso)
    ++ optAttr "message" m.message

/-- Attributes of a `GetProperties`. -/
def getPropAttrs (m : GetPropertiesData) : List (String × String) :=
  optAttr "device" m.device ++ optAttr "name" m.name ++ optAttr "version" m.version

/-- The XML tree built by `to_xml_element` for a top-level message:
attributes from the non-underscore dataclass fields, children from the
element map in insertion order (`PropertyMessageBase.to_xml_element`). -/
def toXmlElement : Msg → XmlTree
  | defTextVector v =>
      ⟨"defTextVector", defSettableAttrs v, "", v.elements.map IndiElementMessage.toXmlElement⟩
  | defNumberVector v =>
      ⟨"defNumberVector", defSettableAttrs v, "", v.elements.map IndiElementMessage.toXmlElement⟩
  | defSwitchVector v =>
      ⟨"defSwitchVector", defSwitchAttrs v, "", v.elements.map IndiElementMessage.toXmlElement⟩
  | defLightVector v =>
      ⟨"defLightVector", defLightAttrs v, "", v.elements.map IndiElementMessage.toXmlElement⟩
  | setTextVector v =>
      ⟨"setTextVector", setAttrs v, "", v.elements.map IndiElementMessage.toXmlElement⟩
  | setNumberVector v =>
      ⟨"setNumberVector", setAttrs v, "", v.elements.map IndiElementMessage.toXmlElement⟩
  | setSwitchVector v =>
      ⟨"setSwitchVector", setAttrs v, "", v.elements.map IndiElementMessage.toXmlElement⟩
  | setLightVector v =>
      ⟨"setLightVector", setAttrs v, "", v.elements.map IndiElementMessage.toXmlElement⟩
  | message m => ⟨"message", messageAttrs m, "", []⟩
  | delProperty m => ⟨"delProperty", delAttrs m, "", []⟩
  | getProperties m => ⟨"getProperties", getPropAttrs m, "", []⟩
  | newTextVector v =>
      ⟨"newTextVector", newAttrs v, "", v.elements.map IndiElementMessage.toXmlElement⟩
  | newNumberVector v =>
      ⟨"newNumberVector", newAttrs v, "", v.elements.map IndiElementMessage.toXmlElement⟩
  | newSwitchVector v =>
      ⟨"newSwitchVector", newAttrs v, "", v.elements.map IndiElementMessage.toXmlElement⟩

end Msg

/-- Lookup in the expat attribute dictionary (`tag_attributes.get(k)`). -/
def lookupAttr (attrs : List (String × String)) (k : String) : Option String :=
  (attrs.find? (fun p => p.1 = k)).map Prod.snd

/-- Mandatory attribute access `tag_attributes[k]`; a missing key raises
`KeyError`. -/
def reqAttr (attrs : List (String × String)) (k : String) : Except String String :=
  match lookupAttr attrs k with
  | some v => .ok v
  | none => .error ("KeyError: " ++ k)

/-- Tags in `IndiStreamParser.PROPERTY_DEF_LOOKUP`. -/
def isDefTag (t : String) : Bool :=
  t = "defTextVector" || t = "defNumberVector" || t = "defSwitchVector" || t = "defLightVector"

/-- Tags in `IndiStreamParser.PROPERTY_SET_LOOKUP`. -/
def isSetTag (t : String) : Bool :=
  t = "setTextVector" || t = "setNumberVector" || t = "setSwitchVector" || t = "setLightVector"

/-- Tags in `IndiStreamParser.PROPERTY_NEW_LOOKUP`. -/
def isNewTag (t : String) : Bool :=
  t = "newTextVector" || t = "newNumberVector" || t = "newSwitchVector"

/-- Tags in `IndiStreamParser.PROPERTY_ELEMENT_LOOKUP`. -/
def isElementTag (t : String) : Bool :=
  t = "oneText" || t = "oneNumber" || t = "oneSwitch" || t = "oneLight"
    || t = "defText" || t = "defNumber" || t = "defSwitch" || t = "defLight"

/-- Mutable state of `IndiStreamParser` (the expat object itself and the
output queue are modelled outside the state). -/
structure ParserState where
  currentIndiElement : Option IndiElementMessage := none
  pendingUpdate : Option Msg := none
  accumulatedChardata : String := ""
deriving DecidableEq, Repr

/-- Parser state right after `_new_parser` ran `Parse('<indi>')` (the
synthetic root's start handler changes nothing). -/
def initParserState : ParserState := {}

/-- Common kwargs of the def branch of `start_xml_element_handler`
(parser.py lines 76-91), for `DefTextVector`. -/
def parseDefTextStart (attrs : List (String × String)) : Except String Msg := do
  let device ← reqAttr attrs "device"
  let name ← reqAttr attrs "name"
  let timeout := lookupAttr attrs "timeout"
  let timestamp := (lookupAttr attrs "timestamp").map Timestamp.mk
  let message := lookupAttr attrs "message"
  let state ← parsePropertyState (← reqAttr attrs "state")
  let label := lookupAttr attrs "label"
  let group := lookupAttr attrs "group"
  let perm ← parsePropertyPerm (← reqAttr attrs "perm")
  pure (Msg.defTextVector ⟨device, name, timestamp, [], timeout, message, state, label, group, perm⟩)

/-- Def branch for `DefNumberVector` (same kwargs as text). -/
def parseDefNumberStart (attrs : List (String × String)) : Except String Msg := do
  let device ← reqAttr attrs "device"
  let name ← reqAttr attrs "name"
  let timeout := lookupAttr attrs "timeout"
  let timestamp := (lookupAttr attrs "timestamp").map Timestamp.mk
  let message := lookupAttr attrs "message"
  let state ← parsePropertyState (← reqAttr attrs "state")
  let label := lookupAttr attrs "label"
  let group := lookupAttr attrs "group"
  let perm ← parsePropertyPerm (← reqAttr attrs "perm")
  pure (Msg.defNumberVector ⟨device, name, timestamp, [], timeout, message, state, label, group, perm⟩)

/-- Def branch for `DefSwitchVector` (adds the mandatory `rule`). -/
def parseDefSwitchStart (attrs : List (String × String)) : Except String Msg := do
  let device ← reqAttr attrs "device"
  let name ← reqAttr attrs "name"
  let timeout := lookupAttr attrs "timeout"
  let timestamp := (lookupAttr attrs "timestamp").map Timestamp.mk
  let message := lookupAttr attrs "message"
  let state ← parsePropertyState (← reqAttr attrs "state")
  let label := lookupAttr attrs "label"
  let group := lookupAttr attrs "group"
  let perm ← parsePropertyPerm (← reqAttr attrs "perm")
  let rule ← parseSwitchRule (← reqAttr attrs "rule")
  pure (Msg.defSwitchVector ⟨device, name, timestamp, [], timeout, message, state, label, group, perm, rule⟩)

/-- Def branch for `DefLightVector` (not a `DefSettableVector`: no
`perm`). -/
def parseDefLightStart (attrs : List (String × String)) : Except String Msg := do
  let device ← reqAttr attrs "device"
  let name ← reqAttr attrs "name"
  let timeout := lookupAttr attrs "timeout"
  let timestamp := (lookupAttr attrs "timestamp").map Timestamp.mk
  let message := lookupAttr attrs "message"
  let state ← parsePropertyState (← reqAttr attrs "state")
  let label := lookupAttr attrs "label"
  let group := lookupAttr attrs "group"
  pure (Msg.defLightVector ⟨device, name, timestamp, [], timeout, message, state, label, group⟩)

/-- Set branch of `start_xml_element_handler` (parser.py lines 92-108),
parameterized by the `Set*Vector` constructor the tag selects. -/
def parseSetStart (mk : SetVectorData → Msg) (attrs : List (String × String)) :
    Except String Msg := do
  let state ← match lookupAttr attrs "state" with
    | some s => do pure (some (← parsePropertyState s))
    | none => pure none
  let device ← reqAttr attrs "device"
  let name ← reqAttr attrs "name"
  let timeout := lookupAttr attrs "timeout"
  let timestamp := (lookupAttr attrs "timestamp").map Timestamp.mk
  let message := lookupAttr attrs "message"
  pure (mk ⟨device, name, timestamp, [], timeout, message, state⟩)

/-- New branch of `start_xml_element_handler` (parser.py lines 109-116). -/
def parseNewStart (mk : NewVectorData → Msg) (attrs : List (String × String)) :
    Except String Msg := do
  let device ← reqAttr attrs "device"
  let name ← reqAttr attrs "name"
  let timestamp := (lookupAttr attrs "timestamp").map Timestamp.mk
  pure (mk ⟨device, name, timestamp, []⟩)

/-- Element branch of `start_xml_element_handler` (parser.py lines
117-135): `name` is mandatory, def kinds read `label`, `DefNumber`
additionally reads `format` and float-parses `min`, `max`, `step`. -/
def parseElementStart (tag : String) (attrs : List (String × String)) :
    Except String IndiElementMessage := do
  let name ← reqAttr attrs "name"
  if tag = "oneText" then pure (.oneText name none)
  else if tag = "oneNumber" then pure (.oneNumber name none)
  else if tag = "oneSwitch" then pure (.oneSwitch name none)
  else if tag = "oneLight" then pure (.oneLight name none)
  else do
    let label := lookupAttr attrs "label"
    if tag = "defText" then pure (.defText name none label)
    else if tag = "defNumber" then do
      let format ← reqAttr attrs "format"
      let mn ← pyFloatOfString (← reqAttr attrs "min")
      let mx ← pyFloatOfString (← reqAttr attrs "max")
      let st ← pyFloatOfString (← reqAttr attrs "step")
      pure (.defNumber name none label format mn mx st)
    else if tag = "defSwitch" then pure (.defSwitch name none label)
    else pure (.defLight name none label)

/-- `delProperty` branch (parser.py lines 136-142).  Note the mandatory
dictionary access `tag_attributes['timestamp']`, unlike the `.get` used
for `device`, `name` and `message`. -/
def parseDelPropertyStart (attrs : List (String × String)) : Except String Msg := do
  let device := lookupAttr attrs "device"
  let name := lookupAttr attrs "name"
  let timestamp := Timestamp.mk (← reqAttr attrs "timestamp")
  let message := lookupAttr attrs "message"
  pure (Msg.delProperty ⟨device, name, some timestamp, message⟩)

/-- `getProperties` branch (parser.py lines 143-148). -/
def parseGetPropertiesStart (attrs : List (String × String)) : Except String Msg :=
  .ok (Msg.getProperties
    ⟨lookupAttr attrs "device", lookupAttr attrs "name", lookupAttr attrs "version"⟩)

/-- Name check of `PropertyMessageBase.add_element`: raise on
redefinition, otherwise insert at the end of the element map. -/
def insElement (es : List IndiElementMessage) (e : IndiElementMessage) :
    Except String (List IndiElementMessage) :=
  if (es.map IndiElementMessage.name).contains e.name
    then .error "ValueError: attempted redefinition of element"
    else .ok (es ++ [e])

/-- `PropertyMessageBase.add_element`: raise on redefinition of a name,
otherwise insert at the end of the element map.  Non-property messages
have no `add_element` (`AttributeError`). -/
def Msg.addElement (m : Msg) (e : IndiElementMessage) : Except String Msg :=
  let ins := fun es => insElement es e
  match m with
  | .defTextVector v => do pure (.defTextVector {v with elements := ← ins v.elements})
  | .defNumberVector v => do pure (.defNumberVector {v with elements := ← ins v.elements})
  | .defSwitchVector v => do pure (.defSwitchVector {v with elements := ← ins v.elements})
  | .defLightVector v => do pure (.defLightVector {v with elements := ← ins v.elements})
  | .setTextVector v => do pure (.setTextVector {v with elements := ← ins v.elements})
  | .setNumberVector v => do pure (.setNumberVector {v with elements := ← ins v.elements})
  | .setSwitchVector v => do pure (.setSwitchVector {v with elements := ← ins v.elements})
  | .setLightVector v => do pure (.setLightVector {v with elements := ← ins v.elements})
  | .newTextVector v => do pure (.newTextVector {v with elements := ← ins v.elements})
  | .newNumberVector v => do pure (.newNumberVector {v with elements := ← ins v.elements})
  | .newSwitchVector v => do pure (.newSwitchVector {v with elements := ← ins v.elements})
  | .message _ => .error "AttributeError: Message has no add_element"
  | .delProperty _ => .error "AttributeError: DelProperty has no add_element"
  | .getProperties _ => .error "AttributeError: GetProperties has no add_element"

/-- `IndiStreamParser.start_xml_element_handler`.  A recognized def, set,
new, `delProperty` or `getProperties` tag replaces `pending_update`
(discarding any half-built one); an element tag builds
`current_indi_element` when a `pending_update` exists and clears it
otherwise; `<indi>` and unknown tags change nothing.  Stray character
data is only logged, never cleared, by this handler. -/
def startHandler (st : ParserState) (tag : String) (attrs : List (String × String)) :
    Except String ParserState := do
  if tag = "defTextVector" then
    pure {st with pendingUpdate := some (← parseDefTextStart attrs)}
  else if tag = "defNumberVector" then
    pure {st with pendingUpdate := some (← parseDefNumberStart attrs)}
  else if tag = "defSwitchVector" then
    pure {st with pendingUpdate := some (← parseDefSwitchStart attrs)}
  else if tag = "defLightVector" then
    pure {st with pendingUpdate := some (← parseDefLightStart attrs)}
  else if tag = "setTextVector" then
    pure {st with pendingUpdate := some (← parseSetStart Msg.setTextVector attrs)}
  else if tag = "setNumberVector" then
    pure {st with pendingUpdate := some (← parseSetStart Msg.setNumberVector attrs)}
  else if tag = "setSwitchVector" then
    pure {st with pendingUpdate := some (← parseSetStart Msg.setSwitchVector attrs)}
  else if tag = "setLightVector" then
    pure {st with pendingUpdate := some (← parseSetStart Msg.setLightVector attrs)}
  else if tag = "newTextVector" then
    pure {st with pendingUpdate := some (← parseNewStart Msg.newTextVector attrs)}
  else if tag = "newNumberVector" then
    pure {st with pendingUpdate := some (← parseNewStart Msg.newNumberVector attrs)}
  else if tag = "newSwitchVector" then
    pure {st with pendingUpdate := some (← parseNewStart Msg.newSwitchVector attrs)}
  else if isElementTag tag then
    match st.pendingUpdate with
    | none => pure {st with currentIndiElement := none}
    | some _ => do pure {st with currentIndiElement := some (← parseElementStart tag attrs)}
  else if tag = "delProperty" then
    pure {st with pendingUpdate := some (← parseDelPropertyStart attrs)}
  else if tag = "getProperties" then
    pure {st with pendingUpdate := some (← parseGetPropertiesStart attrs)}
  else
    pure st

/-- `IndiStreamParser.end_xml_element_handler`.  Returns the new state
and the messages placed on the update queue by this event (the handler
enqueues `pending_update` even when it is `None`, hence `Option Msg`). -/
def endHandler (st : ParserState) (tag : String) :
    Except String (ParserState × List (Option Msg)) :=
  let contents := pyStrip st.accumulatedChardata
  let st := {st with accumulatedChardata := ""}
  if isElementTag tag then
    match st.currentIndiElement with
    | none => .ok (st, [])
    | some e => do
        let e' ← e.setFromText (if contents = "" then none else some contents)
        match st.pendingUpdate with
        | none => .error "AttributeError: NoneType has no attribute add_element"
        | some m => do
            let m' ← m.addElement e'
            pure ({st with pendingUpdate := some m', currentIndiElement := none}, [])
  else if tag = "getProperties" || tag = "delProperty"
      || isDefTag tag || isSetTag tag || isNewTag tag then
    .ok ({st with pendingUpdate := none}, [st.pendingUpdate])
  else
    .ok (st, [])

/-- One expat event through the three handlers of `IndiStreamParser`. -/
def parserStep (st : ParserState) : XmlEvent → Except String (ParserState × List (Option Msg))
  | .startElement tag attrs => do pure (← startHandler st tag attrs, [])
  | .charData s => .ok ({st with accumulatedChardata := st.accumulatedChardata ++ s}, [])
  | .endElement tag => endHandler st tag

/-- Feed a list of expat events: final state, queued messages in order,
and the exception that escaped the handlers, if any (`IndiStreamParser.
parse` catches only `expat.ExpatError`, so a handler exception
propagates to the caller; events after it are not processed). -/
def runParser (st : ParserState) : List XmlEvent → ParserState × List (Option Msg) × Option String
  | [] => (st, [], none)
  | ev :: evs =>
      match parserStep st ev with
      | .ok (st', out) =>
          let r := runParser st' evs
          (r.1, out ++ r.2.1, r.2.2)
      | .error e => (st, [], some e)

/-- Serialize a message and feed the resulting event stream to a fresh
parser: the composition the round-trip law talks about. -/
def roundTrip (m : Msg) : ParserState × List (Option Msg) × Option String :=
  runParser initParserState (treeEvents m.toXmlElement)

/-- Whether a message is one of the eleven property-vector messages
(the ones with an `_elements` map and `add_element`). -/
def Msg.isVector : Msg → Bool
  | .message _ => false
  | .delProperty _ => false
  | .getProperties _ => false
  | _ => true

/-- The `_elements` map of a vector message (empty for the others). -/
def Msg.elems : Msg → List IndiElementMessage
  | .defTextVector v => v.elements
  | .defNumberVector v => v.elements
  | .defSwitchVector v => v.elements
  | .defLightVector v => v.elements
  | .setTextVector v => v.elements
  | .setNumberVector v => v.elements
  | .setSwitchVector v => v.elements
  | .setLightVector v => v.elements
  | .newTextVector v => v.elements
  | .newNumberVector v => v.elements
  | .newSwitchVector v => v.elements
  | _ => []

/-- Replace the `_elements` map of a vector message (identity on the
others). -/
def Msg.setElems : Msg → List IndiElementMessage → Msg
  | .defTextVector v, es => .defTextVector {v with elements := es}
  | .defNumberVector v, es => .defNumberVector {v with elements := es}
  | .defSwitchVector v, es => .defSwitchVector {v with elements := es}
  | .defLightVector v, es => .defLightVector {v with elements := es}
  | .setTextVector v, es => .setTextVector {v with elements := es}
  | .setNumberVector v, es => .setNumberVector {v with elements := es}
  | .setSwitchVector v, es => .setSwitchVector {v with elements := es}
  | .setLightVector v, es => .setLightVector {v with elements := es}
  | .newTextVector v, es => .newTextVector {v with elements := es}
  | .newNumberVector v, es => .newNumberVector {v with elements := es}
  | .newSwitchVector v, es => .newSwitchVector {v with elements := es}
  | m, _ => m

/-- Element values that survive the body-text round trip: text values
must be unset or stripped non-empty strings (the end handler strips the
body and maps the empty body to `None`); light values must be unset
(`OneLight.value_from_text` cannot parse any `PropertyState` wire
string); numbers and switches always survive. -/
def wfElement : IndiElementMessage → Bool
  | .oneText _ v => match v with | none => true | some s => (pyStrip s == s) && (s != "")
  | .defText _ v _ => match v with | none => true | some s => (pyStrip s == s) && (s != "")
  | .oneLight _ v => v.isNone
  | .defLight _ v _ => v.isNone
  | _ => true

/-- Well-formed element map: distinct names (so `add_element` does not
raise) and round-trippable values. -/
def wfElems (es : List IndiElementMessage) : Bool :=
  decide ((es.map IndiElementMessage.name).Nodup) && es.all wfElement

/-- Messages for which the round-trip law holds (the amended claim):
everything except `Message` (the parser has no branch for its tag),
`DelProperty` without a `timestamp` (the parser requires the attribute)
and vectors with elements excluded by `wfElement`. -/
def wfMsg : Msg → Bool
  | .message _ => false
  | .delProperty d => d.timestamp.isSome
  | .getProperties _ => true
  | .defTextVector v => wfElems v.elements
  | .defNumberVector v => wfElems v.elements
  | .defSwitchVector v => wfElems v.elements
  | .defLightVector v => wfElems v.elements
  | .setTextVector v => wfElems v.elements
  | .setNumberVector v => wfElems v.elements
  | .setSwitchVector v => wfElems v.elements
  | .setLightVector v => wfElems v.elements
  | .newTextVector v => wfElems v.elements
  | .newNumberVector v => wfElems v.elements
  | .newSwitchVector v => wfElems v.elements

/-- Decidable equality for `Except` results, used to evaluate the models
at concrete inputs. -/
instance {e a : Type} [DecidableEq e] [DecidableEq a] : DecidableEq (Except e a)
  | .ok x, .ok y => decidable_of_iff (x = y) (by simp)
  | .error x, .error y => decidable_of_iff (x = y) (by simp)
  | .ok _, .error _ => isFalse (by simp)
  | .error _, .ok _ => isFalse (by simp)

/-- Element lookup `property[name]` via `PropertyMessageBase.__getitem__`
on a switch property or message: returns the `_value`, raising `KeyError`
when no element has that name (messages.py lines 248-252). -/
def lookupSwitch (es : List (String × SwitchState)) (n : String) :
    Except String SwitchState :=
  match es.find? (fun p => p.1 = n) with
  | some p => .ok p.2
  | none => .error ("KeyError: no element name " ++ n ++ " in property")

/-- The set-collection loop of `SwitchVector.switch_callback.wrapper`
(properties.py lines 164-174): walk the existing property's elements in
order, collecting `switches_on` and the change sets.  Looking up an
element name missing from the incoming message raises `KeyError`, which
aborts the wrapper before anything is mutated.  (`all_switches` is also
collected by the source but never used afterwards.) -/
def collectSwitchDiff (msg : List (String × SwitchState)) :
    List (String × SwitchState) → Finset String × Finset String × Finset String →
    Except String (Finset String × Finset String × Finset String)
  | [], acc => .ok acc
  | (n, v) :: rest, (on0, ton, toff) =>
      let on0' := if v = .ON then insert n on0 else on0
      match lookupSwitch msg n with
      | .error e => .error e
      | .ok nv =>
          let ton' := if v ≠ nv ∧ nv = .ON then insert n ton else ton
          let toff' := if v ≠ nv ∧ nv = .OFF then insert n toff else toff
          collectSwitchDiff msg rest (on0', ton', toff')

/-- The mutation loop at the end of the wrapper: every name in
`switches_turned_off` is assigned `Off`, then every name in
`switches_turned_on` is assigned `On` (properties.py lines 206-209). -/
def applySwitches (es : List (String × SwitchState)) (ton toff : Finset String) :
    List (String × SwitchState) :=
  es.map (fun p => (p.1, if p.1 ∈ ton then .ON else if p.1 ∈ toff then .OFF else p.2))

/-- Outcome of one wrapper invocation: the property's element values
afterwards, the `(switches_turned_on, switches_turned_off)` arguments
the user handler was invoked with (`none` when it was not invoked), and
whether `device.update_property` ran (it does on every non-raising
path: both rejection branches and the fall-through at line 211). -/
structure SwitchCallbackResult where
  property : List (String × SwitchState)
  handlerArgs : Option (Finset String × Finset String)
  updateSent : Bool
deriving DecidableEq

/-- `SwitchVector.switch_callback.wrapper` (properties.py lines
159-212), with the user callback `apply_changes` passed as a function
from the two change sets to its boolean `success`.  `Except.error`
means a Python exception escapes the wrapper (no mutation, no
`update_property`, no handler call). -/
def switchCallbackWrapper (rule : SwitchRule)
    (apply_changes : Finset String → Finset String → Bool)
    (existing newMessage : List (String × SwitchState)) :
    Except String SwitchCallbackResult := do
  let (on0, ton, toff) ← collectSwitchDiff newMessage existing (∅, ∅, ∅)
  if 0 < ton.card ∨ 0 < toff.card then
    match rule with
    | .ONE_OF_MANY =>
        if (toff ≠ ∅ ∧ ton = ∅) ∨ 1 < ton.card then
          pure ⟨existing, none, true⟩
        else
          let toff' := on0 \ ton
          let success := apply_changes ton toff'
          pure ⟨if success then applySwitches existing ton toff' else existing,
            some (ton, toff'), true⟩
    | .AT_MOST_ONE =>
        if 1 < ton.card then
          pure ⟨existing, none, true⟩
        else
          let toff' := on0 \ ton
          let success := apply_changes ton toff'
          pure ⟨if success then applySwitches existing ton toff' else existing,
            some (ton, toff'), true⟩
    | .ANY_OF_MANY =>
        if ¬(0 < ton.card ∨ 0 < toff.card) then
          pure ⟨existing, none, true⟩
        else
          let success := apply_changes ton toff
          pure ⟨if success then applySwitches existing ton toff else existing,
            some (ton, toff), true⟩
  else
    pure ⟨existing, none, true⟩

/-- One `newSwitchVector` through the wrapper: the property's element
values afterwards.  A raising wrapper leaves them unchanged (the
exception fires in the collection loop, before any mutation). -/
def processNewSwitch (rule : SwitchRule) (es : List (String × SwitchState))
    (step : List (String × SwitchState) × (Finset String → Finset String → Bool)) :
    List (String × SwitchState) :=
  match switchCallbackWrapper rule step.2 es step.1 with
  | .ok r => r.property
  | .error _ => es

/-- Number of elements currently `On`. -/
def onCount (es : List (String × SwitchState)) : Nat :=
  (es.filter (fun p => p.2 = SwitchState.ON)).length

/-- Client-side replica of §3.5, reduced to what `DelProperty` handling
touches: device name to list of property names, in insertion order. -/
abbrev Replica := List (String × List String)

/-- The `DelProperty` branch of `IndiClient.handle_message` (client.py
lines 323-338): no `device` deletes every device; otherwise the
device's properties matching `name` (all of them when `name` is `None`)
are deleted, the device entry itself remaining.  `self.devices[...]`
raises `KeyError` for an unknown device (`RemoteDevices.__getitem__`). -/
def handleDelProperty (r : Replica) (device name : Option String) :
    Except String Replica :=
  match device with
  | none => .ok []
  | some d =>
      match r.find? (fun p => p.1 = d) with
      | none => .error ("KeyError: no device named " ++ d)
      | some _ =>
          .ok (r.map (fun p =>
            if p.1 = d then
              (p.1, match name with
                | none => []
                | some nm => p.2.filter (fun pn => pn ≠ nm))
            else p))

/-- Interest-set state of `IndiClient` relevant to reconnection replay:
the `_has_connected_once` flag and `_interested_properties` (a set,
modelled as a duplicate-free list; `constants.ALL` is `none`). -/
structure ClientInterestState where
  hasConnectedOnce : Bool
  interested : List (Option String × Option String)
deriving DecidableEq, Repr

/-- `IndiClient._register_interest`: add a `(device, property)` pair to
the interest set (`set.add`: no duplicates). -/
def registerInterest (st : ClientInterestState) (device prop : Option String) :
    ClientInterestState :=
  if (device, prop) ∈ st.interested then st
  else {st with interested := st.interested ++ [(device, prop)]}

/-- `IndiClient.handle_connectionstatus_change` (client.py lines
238-257), returning the new state and the `GetProperties` messages sent.
The source tests `connection_status.CONNECTED`, an enum member read off
the instance, which is always truthy, so only `_has_connected_once`
decides the branch; transports only dispatch `connection` events with
status `CONNECTED` anyway.  With `(ALL, ALL)` registered a single
catch-all message is sent; otherwise one per interest entry, with
`name=None` for a device-wide entry. -/
def handleConnectionStatusChange (st : ClientInterestState)
    (connection_status : ConnectionStatus) :
    ClientInterestState × List GetPropertiesData :=
  if st.hasConnectedOnce then
    if (none, none) ∈ st.interested then
      (st, [{ device := none, name := none, version := some "1.7" }])
    else
      (st, st.interested.map (fun p => { device := p.1, name := p.2, version := some "1.7" }))
  else
    ({st with hasConnectedOnce := true}, [])

/-- The wildcard match of `IndiClient.dispatch_callbacks` (client.py
lines 286-290): a callback registered under `(deviceKey, propertyKey)`
(`none` is `constants.ALL`) fires for a message with the given `device`
and `name` attributes.  `"x" == None` is false in Python, hence the
`some` requirements. -/
def shouldFire (deviceKey propertyKey : Option String)
    (msgDevice msgName : Option String) : Bool :=
  deviceKey.isNone
    || (match deviceKey, propertyKey with
        | some d, none => msgDevice = some d
        | _, _ => false)
    || (match deviceKey, propertyKey with
        | some d, some p => msgDevice = some d && msgName = some p
        | _, _ => false)

/-- `IndiClient.dispatch_callbacks` (client.py lines 277-293): fire each
matching callback in table order.  Each callback is `(deviceKey,
propertyKey, raises, tag)`; there is no `try` around `cb(message)`, so
the first raising callback aborts the traversal and its exception
escapes (`some` in the second component).  Returns the tags invoked. -/
def clientDispatchCallbacks :
    List (Option String × Option String × Bool × Nat) → Option String → Option String →
    List Nat × Option String
  | [], _, _ => ([], none)
  | (dk, pk, raises, tag) :: rest, msgDevice, msgName =>
      if shouldFire dk pk msgDevice msgName then
        if raises then ([tag], some "Exception escaped dispatch_callbacks")
        else
          let r := clientDispatchCallbacks rest msgDevice msgName
          (tag :: r.1, r.2)
      else clientDispatchCallbacks rest msgDevice msgName

/-- `IndiConnection.dispatch_callbacks` (transports.py lines 54-60):
every callback for the event runs; a raising callback's exception is
caught and logged and the traversal continues. -/
def transportDispatchCallbacks : List (Bool × Nat) → List Nat
  | [] => []
  | (_, tag) :: rest => tag :: transportDispatchCallbacks rest

/-- `IndiProperty.make_new_property(**kwargs)` (properties.py lines
65-82), abstracted over the element value type: only the elements named
in the assignments are placed in the New-message, after checking the
name exists on the property and the value validates.  The source
comment quotes the INDI whitepaper requirement to send all Number/Text
members and deliberately declines to follow it. -/
def make_new_property {α : Type} (propElements : List (String × α))
    (validate : α → Bool) : List (String × α) → Except String (List (String × α))
  | [] => .ok []
  | (k, v) :: rest =>
      if (propElements.map Prod.fst).contains k = false then
        .error ("ValueError: no element named " ++ k ++ " in property")
      else if validate v = false then
        .error "ValueError: invalid value"
      else do
        pure ((k, v) :: (← make_new_property propElements validate rest))

/-- An element message with its value cleared, as the parser's start
handler builds it (`_value` defaults to `None`). -/
def IndiElementMessage.eraseValue : IndiElementMessage → IndiElementMessage
  | .oneText n _ => .oneText n none
  | .oneNumber n _ => .oneNumber n none
  | .oneSwitch n _ => .oneSwitch n none
  | .oneLight n _ => .oneLight n none
  | .defText n _ lab => .defText n none lab
  | .defNumber n _ lab fmt mn mx st => .defNumber n none lab fmt mn mx st
  | .defSwitch n _ lab => .defSwitch n none lab
  | .defLight n _ lab => .defLight n none lab

lemma strEmptyAppend (s : String) : "" ++ s = s := by
  cases s; rfl

lemma runParser_cons_ok {st st' : ParserState} {ev : XmlEvent} {out : List (Option Msg)}
    {evs : List XmlEvent} (h : parserStep st ev = .ok (st', out)) :
    runParser st (ev :: evs) =
      ((runParser st' evs).1, out ++ (runParser st' evs).2.1, (runParser st' evs).2.2) := by
  simp [runParser, h]

lemma runParser_append_ok {st : ParserState} {l₁ : List XmlEvent} (l₂ : List XmlEvent)
    (h : (runParser st l₁).2.2 = none) :
    runParser st (l₁ ++ l₂) =
      ((runParser (runParser st l₁).1 l₂).1,
        (runParser st l₁).2.1 ++ (runParser (runParser st l₁).1 l₂).2.1,
        (runParser (runParser st l₁).1 l₂).2.2) := by
  induction l₁ generalizing st with
  | nil => simp [runParser]
  | cons ev evs ih =>
      match hstep : parserStep st ev with
      | .error e => simp [runParser, hstep] at h
      | .ok (st', out) =>
          have h' : (runParser st' evs).2.2 = none := by
            simpa [runParser, hstep] using h
          simp [runParser, hstep, ih h']

lemma setElems_isVector {m : Msg} (hv : m.isVector = true) (es : List IndiElementMessage) :
    (m.setElems es).isVector = true := by
  cases m <;> simp_all [Msg.isVector, Msg.setElems]

lemma setElems_elems {m : Msg} (hv : m.isVector = true) (es : List IndiElementMessage) :
    (m.setElems es).elems = es := by
  cases m <;> simp_all [Msg.isVector, Msg.setElems, Msg.elems]

lemma setElems_setElems (m : Msg) (a b : List IndiElementMessage) :
    (m.setElems a).setElems b = m.setElems b := by
  cases m <;> simp [Msg.setElems]

lemma setElems_self (m : Msg) : m.setElems m.elems = m := by
  cases m <;> rfl

lemma insElement_ok {es : List IndiElementMessage} {e : IndiElementMessage}
    (h : (es.map IndiElementMessage.name).contains e.name = false) :
    insElement es e = .ok (es ++ [e]) := by
  unfold insElement
  rw [h]
  simp

lemma addElement_ok {m : Msg} (hv : m.isVector = true) {e : IndiElementMessage}
    (hfresh : (m.elems.map IndiElementMessage.name).contains e.name = false) :
    m.addElement e = .ok (m.setElems (m.elems ++ [e])) := by
  cases m with
  | message m => simp [Msg.isVector] at hv
  | delProperty m => simp [Msg.isVector] at hv
  | getProperties m => simp [Msg.isVector] at hv
  | defTextVector v =>
      simp only [Msg.elems] at hfresh
      simp [Msg.addElement, insElement_ok hfresh, Msg.setElems, Msg.elems]
  | defNumberVector v =>
      simp only [Msg.elems] at hfresh
      simp [Msg.addElement, insElement_ok hfresh, Msg.setElems, Msg.elems]
  | defSwitchVector v =>
      simp only [Msg.elems] at hfresh
      simp [Msg.addElement, insElement_ok hfresh, Msg.setElems, Msg.elems]
  | defLightVector v =>
      simp only [Msg.elems] at hfresh
      simp [Msg.addElement, insElement_ok hfresh, Msg.setElems, Msg.elems]
  | setTextVector v =>
      simp only [Msg.elems] at hfresh
      simp [Msg.addElement, insElement_ok hfresh, Msg.setElems, Msg.elems]
  | setNumberVector v =>
      simp only [Msg.elems] at hfresh
      simp [Msg.addElement, insElement_ok hfresh, Msg.setElems, Msg.elems]
  | setSwitchVector v =>
      simp only [Msg.elems] at hfresh
      simp [Msg.addElement, insElement_ok hfresh, Msg.setElems, Msg.elems]
  | setLightVector v =>
      simp only [Msg.elems] at hfresh
      simp [Msg.addElement, insElement_ok hfresh, Msg.setElems, Msg.elems]
  | newTextVector v =>
      simp only [Msg.elems] at hfresh
      simp [Msg.addElement, insElement_ok hfresh, Msg.setElems, Msg.elems]
  | newNumberVector v =>
      simp only [Msg.elems] at hfresh
      simp [Msg.addElement, insElement_ok hfresh, Msg.setElems, Msg.elems]
  | newSwitchVector v =>
      simp only [Msg.elems] at hfresh
      simp [Msg.addElement, insElement_ok hfresh, Msg.setElems, Msg.elems]


lemma exceptBind_ok {α β ε : Type} (a : α) (f : α → Except ε β) :
    (Except.ok a : Except ε α) >>= f = f a := rfl

lemma exceptBind_err {α β ε : Type} (e : ε) (f : α → Except ε β) :
    (Except.error e : Except ε α) >>= f = .error e := rfl

lemma exceptMap_ok {α β ε : Type} (a : α) (f : α → β) :
    f <$> (Except.ok a : Except ε α) = .ok (f a) := rfl

lemma exceptMap_err {α β ε : Type} (e : ε) (f : α → β) :
    f <$> (Except.error e : Except ε α) = .error e := rfl

lemma pyStripEmpty : pyStrip "" = "" := rfl

lemma pyStripOff : pyStrip "Off" = "Off" := by decide

lemma pyStripOn : pyStrip "On" = "On" := by decide

lemma startElement_step (e : IndiElementMessage) (cur : Option IndiElementMessage)
    (m : Msg) (acc : String) :
    parserStep ⟨cur, some m, acc⟩ (.startElement e.tag e.xmlAttrs) =
      .ok (⟨some e.eraseValue, some m, acc⟩, []) := by
  cases e with
  | oneText n v => simp [parserStep, startHandler, isElementTag, parseElementStart, reqAttr,
      lookupAttr, IndiElementMessage.tag, IndiElementMessage.xmlAttrs,
      IndiElementMessage.eraseValue, List.find?]
  | oneNumber n v => simp [parserStep, startHandler, isElementTag, parseElementStart, reqAttr,
      lookupAttr, IndiElementMessage.tag, IndiElementMessage.xmlAttrs,
      IndiElementMessage.eraseValue, List.find?]
  | oneSwitch n v => simp [parserStep, startHandler, isElementTag, parseElementStart, reqAttr,
      lookupAttr, IndiElementMessage.tag, IndiElementMessage.xmlAttrs,
      IndiElementMessage.eraseValue, List.find?]
  | oneLight n v => simp [parserStep, startHandler, isElementTag, parseElementStart, reqAttr,
      lookupAttr, IndiElementMessage.tag, IndiElementMessage.xmlAttrs,
      IndiElementMessage.eraseValue, List.find?]
  | defText n v lab => cases lab <;> simp [parserStep, startHandler, isElementTag,
      parseElementStart, reqAttr, lookupAttr, IndiElementMessage.tag,
      IndiElementMessage.xmlAttrs, IndiElementMessage.eraseValue, optAttr, List.find?]
  | defSwitch n v lab => cases lab <;> simp [parserStep, startHandler, isElementTag,
      parseElementStart, reqAttr, lookupAttr, IndiElementMessage.tag,
      IndiElementMessage.xmlAttrs, IndiElementMessage.eraseValue, optAttr, List.find?]
  | defLight n v lab => cases lab <;> simp [parserStep, startHandler, isElementTag,
      parseElementStart, reqAttr, lookupAttr, IndiElementMessage.tag,
      IndiElementMessage.xmlAttrs, IndiElementMessage.eraseValue, optAttr, List.find?]
  | defNumber n v lab fmt mn mx st => cases lab <;> simp [parserStep, startHandler,
      isElementTag, parseElementStart, reqAttr, lookupAttr, IndiElementMessage.tag,
      IndiElementMessage.xmlAttrs, IndiElementMessage.eraseValue, optAttr, List.find?,
      pyFloatOfString, pyFloatStr, mn.2.1, mn.2.2, mx.2.1, mx.2.2, st.2.1, st.2.2,
      exceptBind_ok, exceptMap_ok, Subtype.coe_eta]

lemma endElement_step (e : IndiElementMessage) (he : wfElement e = true) {m m' : Msg}
    (hadd : m.addElement e = .ok m') :
    parserStep ⟨some e.eraseValue, some m, e.xmlText⟩ (.endElement e.tag) =
      .ok (⟨none, some m', ""⟩, []) := by
  cases e with
  | oneText n v =>
      cases v with
      | none =>
          simp [parserStep, endHandler, isElementTag, IndiElementMessage.tag,
            IndiElementMessage.xmlText, IndiElementMessage.eraseValue,
            IndiElementMessage.setFromText, pyStripEmpty, hadd, exceptBind_ok]
      | some s =>
          have hs : pyStrip s = s ∧ ¬(s = "") := by simpa [wfElement] using he
          simp [parserStep, endHandler, isElementTag, IndiElementMessage.tag,
            IndiElementMessage.xmlText, IndiElementMessage.eraseValue, hs.1, hs.2,
            IndiElementMessage.setFromText, hadd, exceptBind_ok]
  | oneNumber n v =>
      cases v with
      | none =>
          simp [parserStep, endHandler, isElementTag, IndiElementMessage.tag,
            IndiElementMessage.xmlText, IndiElementMessage.eraseValue,
            IndiElementMessage.setFromText, pyStripEmpty, hadd, exceptBind_ok]
      | some f =>
          simp [parserStep, endHandler, isElementTag, IndiElementMessage.tag,
            IndiElementMessage.xmlText, IndiElementMessage.eraseValue, pyFloatStr,
            f.2.1, f.2.2, IndiElementMessage.setFromText, pyFloatOfString,
            hadd, exceptBind_ok, Subtype.coe_eta]
  | oneSwitch n v =>
      cases v with
      | none =>
          simp [parserStep, endHandler, isElementTag, IndiElementMessage.tag,
            IndiElementMessage.xmlText, IndiElementMessage.eraseValue,
            IndiElementMessage.setFromText, pyStripEmpty, hadd, exceptBind_ok]
      | some sw =>
          cases sw <;>
            simp [parserStep, endHandler, isElementTag, IndiElementMessage.tag,
              IndiElementMessage.xmlText, IndiElementMessage.eraseValue, SwitchState.value,
              pyStripOff, pyStripOn, IndiElementMessage.setFromText, parseSwitchState,
              hadd, exceptBind_ok]
  | oneLight n v =>
      have hv : v = none := by simpa [wfElement, Option.isNone_iff_eq_none] using he
      subst hv
      simp [parserStep, endHandler, isElementTag, IndiElementMessage.tag,
        IndiElementMessage.xmlText, IndiElementMessage.eraseValue,
        IndiElementMessage.setFromText, pyStripEmpty, hadd, exceptBind_ok]
  | defText n v lab =>
      cases v with
      | none =>
          simp [parserStep, endHandler, isElementTag, IndiElementMessage.tag,
            IndiElementMessage.xmlText, IndiElementMessage.eraseValue,
            IndiElementMessage.setFromText, pyStripEmpty, hadd, exceptBind_ok]
      | some s =>
          have hs : pyStrip s = s ∧ ¬(s = "") := by simpa [wfElement] using he
          simp [parserStep, endHandler, isElementTag, IndiElementMessage.tag,
            IndiElementMessage.xmlText, IndiElementMessage.eraseValue, hs.1, hs.2,
            IndiElementMessage.setFromText, hadd, exceptBind_ok]
  | defNumber n v lab fmt mn mx st =>
      cases v with
      | none =>
          simp [parserStep, endHandler, isElementTag, IndiElementMessage.tag,
            IndiElementMessage.xmlText, IndiElementMessage.eraseValue,
            IndiElementMessage.setFromText, pyStripEmpty, hadd, exceptBind_ok]
      | some f =>
          simp [parserStep, endHandler, isElementTag, IndiElementMessage.tag,
            IndiElementMessage.xmlText, IndiElementMessage.eraseValue, pyFloatStr,
            f.2.1, f.2.2, IndiElementMessage.setFromText, pyFloatOfString,
            hadd, exceptBind_ok, Subtype.coe_eta]
  | defSwitch n v lab =>
      cases v with
      | none =>
          simp [parserStep, endHandler, isElementTag, IndiElementMessage.tag,
            IndiElementMessage.xmlText, IndiElementMessage.eraseValue,
            IndiElementMessage.setFromText, pyStripEmpty, hadd, exceptBind_ok]
      | some sw =>
          cases sw <;>
            simp [parserStep, endHandler, isElementTag, IndiElementMessage.tag,
              IndiElementMessage.xmlText, IndiElementMessage.eraseValue, SwitchState.value,
              pyStripOff, pyStripOn, IndiElementMessage.setFromText, parseSwitchState,
              hadd, exceptBind_ok]
  | defLight n v lab =>
      have hv : v = none := by simpa [wfElement, Option.isNone_iff_eq_none] using he
      subst hv
      simp [parserStep, endHandler, isElementTag, IndiElementMessage.tag,
        IndiElementMessage.xmlText, IndiElementMessage.eraseValue,
        IndiElementMessage.setFromText, pyStripEmpty, hadd, exceptBind_ok]

lemma treeEvents_leaf (tg : String) (attrs : List (String × String)) (text : String) :
    treeEvents ⟨tg, attrs, text, []⟩ =
      [XmlEvent.startElement tg attrs]
        ++ (if text = "" then [] else [XmlEvent.charData text])
        ++ [XmlEvent.endElement tg] := by
  rw [treeEvents]
  simp

lemma treeEvents_node (tg : String) (attrs : List (String × String))
    (children : List XmlTree) :
    treeEvents ⟨tg, attrs, "", children⟩ =
      [XmlEvent.startElement tg attrs]
        ++ (children.map treeEvents).flatten
        ++ [XmlEvent.endElement tg] := by
  rw [treeEvents]
  simp

lemma runParser_element (e : IndiElementMessage) (he : wfElement e = true) {m m' : Msg}
    (hadd : m.addElement e = .ok m') :
    runParser ⟨none, some m, ""⟩ (treeEvents e.toXmlElement) =
      (⟨none, some m', ""⟩, [], none) := by
  have h1 := startElement_step e none m ""
  have h3 := endElement_step e he hadd
  have hev0 : treeEvents e.toXmlElement =
      [XmlEvent.startElement e.tag e.xmlAttrs]
        ++ (if e.xmlText = "" then [] else [XmlEvent.charData e.xmlText])
        ++ [XmlEvent.endElement e.tag] := treeEvents_leaf _ _ _
  by_cases htext : e.xmlText = ""
  · rw [hev0, if_pos htext]
    rw [htext] at h3
    rw [show ([XmlEvent.startElement e.tag e.xmlAttrs] ++ [] ++ [XmlEvent.endElement e.tag]
        : List XmlEvent) = [XmlEvent.startElement e.tag e.xmlAttrs, XmlEvent.endElement e.tag]
      from by simp]
    rw [runParser_cons_ok h1, runParser_cons_ok h3]
    simp [runParser]
  · rw [hev0, if_neg htext]
    have h2 : parserStep ⟨some e.eraseValue, some m, ""⟩ (.charData e.xmlText) =
        .ok (⟨some e.eraseValue, some m, e.xmlText⟩, []) := by
      simp [parserStep, strEmptyAppend]
    rw [show ([XmlEvent.startElement e.tag e.xmlAttrs] ++ [XmlEvent.charData e.xmlText]
          ++ [XmlEvent.endElement e.tag] : List XmlEvent)
        = [XmlEvent.startElement e.tag e.xmlAttrs, XmlEvent.charData e.xmlText,
            XmlEvent.endElement e.tag] from by simp]
    rw [runParser_cons_ok h1, runParser_cons_ok h2, runParser_cons_ok h3]
    simp [runParser]

lemma runParser_elements (es : List IndiElementMessage) {m : Msg} (hv : m.isVector = true)
    (hwf : es.all wfElement = true)
    (hnodup : ((m.elems ++ es).map IndiElementMessage.name).Nodup) :
    runParser ⟨none, some m, ""⟩
        ((es.map (fun e => treeEvents e.toXmlElement)).flatten) =
      (⟨none, some (m.setElems (m.elems ++ es)), ""⟩, [], none) := by
  induction es generalizing m with
  | nil => simp [runParser, setElems_self]
  | cons e rest ih =>
      rw [List.all_cons, Bool.and_eq_true] at hwf
      have hfresh : (m.elems.map IndiElementMessage.name).contains e.name = false := by
        have hmem : e.name ∉ m.elems.map IndiElementMessage.name := by
          intro hmemx
          rw [List.map_append] at hnodup
          obtain ⟨_, _, hdisj⟩ := List.nodup_append.mp hnodup
          exact hdisj hmemx (by simp)
        simpa using hmem
      have hadd := addElement_ok hv hfresh
      have h1 := runParser_element e hwf.1 hadd
      have hvv := setElems_isVector hv (m.elems ++ [e])
      have helems := setElems_elems hv (m.elems ++ [e])
      have hnodup2 : (((m.setElems (m.elems ++ [e])).elems ++ rest).map
          IndiElementMessage.name).Nodup := by
        rw [helems, List.append_assoc]
        simpa using hnodup
      have ihx := ih hvv hwf.2 hnodup2
      rw [List.map_cons, List.flatten_cons, runParser_append_ok _ (by rw [h1])]
      rw [h1]
      simp only [helems] at ihx
      rw [ihx]
      simp [setElems_setElems, List.append_assoc]

lemma parsePropertyState_value (p : PropertyState) : parsePropertyState p.value = .ok p := by
  cases p <;> rfl

lemma parsePropertyPerm_value (p : PropertyPerm) : parsePropertyPerm p.value = .ok p := by
  cases p <;> rfl

lemma parseSwitchRule_value (r : SwitchRule) : parseSwitchRule r.value = .ok r := by
  cases r <;> rfl

lemma tsEta (t : Timestamp) : Timestamp.mk t.iso = t := rfl

lemma startStep_defTextVector (v : DefSettableVectorData) (st : ParserState) :
    parserStep st (.startElement "defTextVector" (Msg.defSettableAttrs v)) =
      .ok ({st with pendingUpdate := some (Msg.defTextVector {v with elements := []})}, []) := by
  obtain ⟨dev, nm, ts, es, tio, msg, stt, lab, grp, pm⟩ := v
  cases ts <;> cases tio <;> cases msg <;> cases lab <;> cases grp <;>
    simp [parserStep, startHandler, parseDefTextStart, Msg.defSettableAttrs, optAttr,
      reqAttr, lookupAttr, List.find?, parsePropertyState_value, parsePropertyPerm_value,
      tsEta, exceptBind_ok, exceptMap_ok]

lemma startStep_defNumberVector (v : DefSettableVectorData) (st : ParserState) :
    parserStep st (.startElement "defNumberVector" (Msg.defSettableAttrs v)) =
      .ok ({st with pendingUpdate := some (Msg.defNumberVector {v with elements := []})}, []) := by
  obtain ⟨dev, nm, ts, es, tio, msg, stt, lab, grp, pm⟩ := v
  cases ts <;> cases tio <;> cases msg <;> cases lab <;> cases grp <;>
    simp [parserStep, startHandler, parseDefNumberStart, Msg.defSettableAttrs, optAttr,
      reqAttr, lookupAttr, List.find?, parsePropertyState_value, parsePropertyPerm_value,
      tsEta, exceptBind_ok, exceptMap_ok]

lemma startStep_defSwitchVector (v : DefSwitchVectorData) (st : ParserState) :
    parserStep st (.startElement "defSwitchVector" (Msg.defSwitchAttrs v)) =
      .ok ({st with pendingUpdate := some (Msg.defSwitchVector {v with elements := []})}, []) := by
  obtain ⟨dev, nm, ts, es, tio, msg, stt, lab, grp, pm, rl⟩ := v
  cases ts <;> cases tio <;> cases msg <;> cases lab <;> cases grp <;>
    simp [parserStep, startHandler, parseDefSwitchStart, Msg.defSwitchAttrs, optAttr,
      reqAttr, lookupAttr, List.find?, parsePropertyState_value, parsePropertyPerm_value,
      parseSwitchRule_value, tsEta, exceptBind_ok, exceptMap_ok]

lemma startStep_defLightVector (v : DefLightVectorData) (st : ParserState) :
    parserStep st (.startElement "defLightVector" (Msg.defLightAttrs v)) =
      .ok ({st with pendingUpdate := some (Msg.defLightVector {v with elements := []})}, []) := by
  obtain ⟨dev, nm, ts, es, tio, msg, stt, lab, grp⟩ := v
  cases ts <;> cases tio <;> cases msg <;> cases lab <;> cases grp <;>
    simp [parserStep, startHandler, parseDefLightStart, Msg.defLightAttrs, optAttr,
      reqAttr, lookupAttr, List.find?, parsePropertyState_value,
      tsEta, exceptBind_ok, exceptMap_ok]

lemma startStep_setTextVector (v : SetVectorData) (st : ParserState) :
    parserStep st (.startElement "setTextVector" (Msg.setAttrs v)) =
      .ok ({st with pendingUpdate := some (Msg.setTextVector {v with elements := []})}, []) := by
  obtain ⟨dev, nm, ts, es, tio, msg, stt⟩ := v
  cases ts <;> cases tio <;> cases msg <;> cases stt <;>
    simp [parserStep, startHandler, parseSetStart, Msg.setAttrs, optAttr,
      reqAttr, lookupAttr, List.find?, parsePropertyState_value,
      tsEta, exceptBind_ok, exceptMap_ok]

lemma startStep_setNumberVector (v : SetVectorData) (st : ParserState) :
    parserStep st (.startElement "setNumberVector" (Msg.setAttrs v)) =
      .ok ({st with pendingUpdate := some (Msg.setNumberVector {v with elements := []})}, []) := by
  obtain ⟨dev, nm, ts, es, tio, msg, stt⟩ := v
  cases ts <;> cases tio <;> cases msg <;> cases stt <;>
    simp [parserStep, startHandler, parseSetStart, Msg.setAttrs, optAttr,
      reqAttr, lookupAttr, List.find?, parsePropertyState_value,
      tsEta, exceptBind_ok, exceptMap_ok]

lemma startStep_setSwitchVector (v : SetVectorData) (st : ParserState) :
    parserStep st (.startElement "setSwitchVector" (Msg.setAttrs v)) =
      .ok ({st with pendingUpdate := some (Msg.setSwitchVector {v with elements := []})}, []) := by
  obtain ⟨dev, nm, ts, es, tio, msg, stt⟩ := v
  cases ts <;> cases tio <;> cases msg <;> cases stt <;>
    simp [parserStep, startHandler, parseSetStart, Msg.setAttrs, optAttr,
      reqAttr, lookupAttr, List.find?, parsePropertyState_value,
      tsEta, exceptBind_ok, exceptMap_ok]

lemma startStep_setLightVector (v : SetVectorData) (st : ParserState) :
    parserStep st (.startElement "setLightVector" (Msg.setAttrs v)) =
      .ok ({st with pendingUpdate := some (Msg.setLightVector {v with elements := []})}, []) := by
  obtain ⟨dev, nm, ts, es, tio, msg, stt⟩ := v
  cases ts <;> cases tio <;> cases msg <;> cases stt <;>
    simp [parserStep, startHandler, parseSetStart, Msg.setAttrs, optAttr,
      reqAttr, lookupAttr, List.find?, parsePropertyState_value,
      tsEta, exceptBind_ok, exceptMap_ok]

lemma startStep_newTextVector (v : NewVectorData) (st : ParserState) :
    parserStep st (.startElement "newTextVector" (Msg.newAttrs v)) =
      .ok ({st with pendingUpdate := some (Msg.newTextVector {v with elements := []})}, []) := by
  obtain ⟨dev, nm, ts, es⟩ := v
  cases ts <;>
    simp [parserStep, startHandler, parseNewStart, Msg.newAttrs, optAttr,
      reqAttr, lookupAttr, List.find?, tsEta, exceptBind_ok, exceptMap_ok]

lemma startStep_newNumberVector (v : NewVectorData) (st : ParserState) :
    parserStep st (.startElement "newNumberVector" (Msg.newAttrs v)) =
      .ok ({st with pendingUpdate := some (Msg.newNumberVector {v with elements := []})}, []) := by
  obtain ⟨dev, nm, ts, es⟩ := v
  cases ts <;>
    simp [parserStep, startHandler, parseNewStart, Msg.newAttrs, optAttr,
      reqAttr, lookupAttr, List.find?, tsEta, exceptBind_ok, exceptMap_ok]

lemma startStep_newSwitchVector (v : NewVectorData) (st : ParserState) :
    parserStep st (.startElement "newSwitchVector" (Msg.newAttrs v)) =
      .ok ({st with pendingUpdate := some (Msg.newSwitchVector {v with elements := []})}, []) := by
  obtain ⟨dev, nm, ts, es⟩ := v
  cases ts <;>
    simp [parserStep, startHandler, parseNewStart, Msg.newAttrs, optAttr,
      reqAttr, lookupAttr, List.find?, tsEta, exceptBind_ok, exceptMap_ok]

lemma startStep_delProperty (m : DelPropertyData) (t : Timestamp)
    (ht : m.timestamp = some t) (st : ParserState) :
    parserStep st (.startElement "delProperty" (Msg.delAttrs m)) =
      .ok ({st with pendingUpdate := some (Msg.delProperty m)}, []) := by
  obtain ⟨dev, nm, ts, msg⟩ := m
  cases ht
  cases dev <;> cases nm <;> cases msg <;>
    simp [parserStep, startHandler, isElementTag, parseDelPropertyStart, Msg.delAttrs,
      optAttr, reqAttr, lookupAttr, List.find?, tsEta, exceptBind_ok, exceptMap_ok]

lemma startStep_getProperties (m : GetPropertiesData) (st : ParserState) :
    parserStep st (.startElement "getProperties" (Msg.getPropAttrs m)) =
      .ok ({st with pendingUpdate := some (Msg.getProperties m)}, []) := by
  obtain ⟨dev, nm, ver⟩ := m
  cases dev <;> cases nm <;> cases ver <;>
    simp [parserStep, startHandler, isElementTag, parseGetPropertiesStart, Msg.getPropAttrs,
      optAttr, reqAttr, lookupAttr, List.find?, exceptBind_ok, exceptMap_ok]

lemma endStep_topLevel (cur : Option IndiElementMessage) (p : Option Msg) (acc : String)
    (tg : String) (h1 : isElementTag tg = false)
    (h2 : (decide (tg = "getProperties") || decide (tg = "delProperty") || isDefTag tg
      || isSetTag tg || isNewTag tg) = true) :
    parserStep ⟨cur, p, acc⟩ (.endElement tg) = .ok (⟨cur, none, ""⟩, [p]) := by
  simp [parserStep, endHandler, h1, h2]

lemma roundTrip_vector_aux (m₀ v0 : Msg) (tg : String) (attrs : List (String × String))
    (es : List IndiElementMessage)
    (h1 : parserStep initParserState (.startElement tg attrs) = .ok (⟨none, some m₀, ""⟩, []))
    (hv : m₀.isVector = true) (helems : m₀.elems = [])
    (hn : (es.map IndiElementMessage.name).Nodup) (ha : es.all wfElement = true)
    (hm : m₀.setElems es = v0)
    (hev : treeEvents v0.toXmlElement =
      XmlEvent.startElement tg attrs
        :: ((es.map (fun e => treeEvents e.toXmlElement)).flatten
          ++ [XmlEvent.endElement tg]))
    (htag1 : isElementTag tg = false)
    (htag2 : (decide (tg = "getProperties") || decide (tg = "delProperty") || isDefTag tg
      || isSetTag tg || isNewTag tg) = true) :
    roundTrip v0 = (initParserState, [some v0], none) := by
  have hnodup : ((m₀.elems ++ es).map IndiElementMessage.name).Nodup := by
    rw [helems]
    simpa using hn
  have hmid0 := runParser_elements es hv ha hnodup
  rw [helems] at hmid0
  simp only [List.nil_append] at hmid0
  rw [hm] at hmid0
  rw [roundTrip, hev, runParser_cons_ok h1, runParser_append_ok _ (by rw [hmid0])]
  rw [hmid0]
  simp [runParser, endStep_topLevel none (some v0) "" tg htag1 htag2, initParserState]

/-- Amended round-trip law (C1): serializing any reachable message other
than `Message`, a `DelProperty` lacking a timestamp, or a vector with
non-round-trippable element values, and feeding the events to a fresh
parser, enqueues exactly that message and leaves the parser clean. -/
theorem parse_serialize_roundTrip (m : Msg) (h : wfMsg m = true) :
    roundTrip m = (initParserState, [some m], none) := by
  cases m with
  | message md => simp [wfMsg] at h
  | delProperty d =>
      obtain ⟨t, ht⟩ := Option.isSome_iff_exists.mp (by simpa [wfMsg] using h)
      have h1 : parserStep initParserState (.startElement "delProperty" (Msg.delAttrs d)) =
          .ok (⟨none, some (Msg.delProperty d), ""⟩, []) := by
        simpa [initParserState] using startStep_delProperty d t ht initParserState
      have hev : treeEvents (Msg.delProperty d).toXmlElement =
          [XmlEvent.startElement "delProperty" (Msg.delAttrs d),
            XmlEvent.endElement "delProperty"] := by
        simp [Msg.toXmlElement, treeEvents_leaf]
      rw [roundTrip, hev, runParser_cons_ok h1,
        runParser_cons_ok (endStep_topLevel none (some (Msg.delProperty d)) "" "delProperty"
          (by decide) (by decide))]
      simp [runParser, initParserState]
  | getProperties g =>
      have h1 : parserStep initParserState
            (.startElement "getProperties" (Msg.getPropAttrs g)) =
          .ok (⟨none, some (Msg.getProperties g), ""⟩, []) := by
        simpa [initParserState] using startStep_getProperties g initParserState
      have hev : treeEvents (Msg.getProperties g).toXmlElement =
          [XmlEvent.startElement "getProperties" (Msg.getPropAttrs g),
            XmlEvent.endElement "getProperties"] := by
        simp [Msg.toXmlElement, treeEvents_leaf]
      rw [roundTrip, hev, runParser_cons_ok h1,
        runParser_cons_ok (endStep_topLevel none (some (Msg.getProperties g)) ""
          "getProperties" (by decide) (by decide))]
      simp [runParser, initParserState]
  | defTextVector v =>
      have hwfe : wfElems v.elements = true := by simpa [wfMsg] using h
      rw [wfElems, Bool.and_eq_true, decide_eq_true_eq] at hwfe
      refine roundTrip_vector_aux (Msg.defTextVector {v with elements := []}) _
        "defTextVector" (Msg.defSettableAttrs v) v.elements ?_ rfl rfl hwfe.1 hwfe.2 rfl
        ?_ (by decide) (by decide)
      · simpa [initParserState] using startStep_defTextVector v initParserState
      · simp [Msg.toXmlElement, treeEvents_node, List.map_map, Function.comp_def]
  | defNumberVector v =>
      have hwfe : wfElems v.elements = true := by simpa [wfMsg] using h
      rw [wfElems, Bool.and_eq_true, decide_eq_true_eq] at hwfe
      refine roundTrip_vector_aux (Msg.defNumberVector {v with elements := []}) _
        "defNumberVector" (Msg.defSettableAttrs v) v.elements ?_ rfl rfl hwfe.1 hwfe.2 rfl
        ?_ (by decide) (by decide)
      · simpa [initParserState] using startStep_defNumberVector v initParserState
      · simp [Msg.toXmlElement, treeEvents_node, List.map_map, Function.comp_def]
  | defSwitchVector v =>
      have hwfe : wfElems v.elements = true := by simpa [wfMsg] using h
      rw [wfElems, Bool.and_eq_true, decide_eq_true_eq] at hwfe
      refine roundTrip_vector_aux (Msg.defSwitchVector {v with elements := []}) _
        "defSwitchVector" (Msg.defSwitchAttrs v) v.elements ?_ rfl rfl hwfe.1 hwfe.2 rfl
        ?_ (by decide) (by decide)
      · simpa [initParserState] using startStep_defSwitchVector v initParserState
      · simp [Msg.toXmlElement, treeEvents_node, List.map_map, Function.comp_def]
  | defLightVector v =>
      have hwfe : wfElems v.elements = true := by simpa [wfMsg] using h
      rw [wfElems, Bool.and_eq_true, decide_eq_true_eq] at hwfe
      refine roundTrip_vector_aux (Msg.defLightVector {v with elements := []}) _
        "defLightVector" (Msg.defLightAttrs v) v.elements ?_ rfl rfl hwfe.1 hwfe.2 rfl
        ?_ (by decide) (by decide)
      · simpa [initParserState] using startStep_defLightVector v initParserState
      · simp [Msg.toXmlElement, treeEvents_node, List.map_map, Function.comp_def]
  | setTextVector v =>
      have hwfe : wfElems v.elements = true := by simpa [wfMsg] using h
      rw [wfElems, Bool.and_eq_true, decide_eq_true_eq] at hwfe
      refine roundTrip_vector_aux (Msg.setTextVector {v with elements := []}) _
        "setTextVector" (Msg.setAttrs v) v.elements ?_ rfl rfl hwfe.1 hwfe.2 rfl
        ?_ (by decide) (by decide)
      · simpa [initParserState] using startStep_setTextVector v initParserState
      · simp [Msg.toXmlElement, treeEvents_node, List.map_map, Function.comp_def]
  | setNumberVector v =>
      have hwfe : wfElems v.elements = true := by simpa [wfMsg] using h
      rw [wfElems, Bool.and_eq_true, decide_eq_true_eq] at hwfe
      refine roundTrip_vector_aux (Msg.setNumberVector {v with elements := []}) _
        "setNumberVector" (Msg.setAttrs v) v.elements ?_ rfl rfl hwfe.1 hwfe.2 rfl
        ?_ (by decide) (by decide)
      · simpa [initParserState] using startStep_setNumberVector v initParserState
      · simp [Msg.toXmlElement, treeEvents_node, List.map_map, Function.comp_def]
  | setSwitchVector v =>
      have hwfe : wfElems v.elements = true := by simpa [wfMsg] using h
      rw [wfElems, Bool.and_eq_true, decide_eq_true_eq] at hwfe
      refine roundTrip_vector_aux (Msg.setSwitchVector {v with elements := []}) _
        "setSwitchVector" (Msg.setAttrs v) v.elements ?_ rfl rfl hwfe.1 hwfe.2 rfl
        ?_ (by decide) (by decide)
      · simpa [initParserState] using startStep_setSwitchVector v initParserState
      · simp [Msg.toXmlElement, treeEvents_node, List.map_map, Function.comp_def]
  | setLightVector v =>
      have hwfe : wfElems v.elements = true := by simpa [wfMsg] using h
      rw [wfElems, Bool.and_eq_true, decide_eq_true_eq] at hwfe
      refine roundTrip_vector_aux (Msg.setLightVector {v with elements := []}) _
        "setLightVector" (Msg.setAttrs v) v.elements ?_ rfl rfl hwfe.1 hwfe.2 rfl
        ?_ (by decide) (by decide)
      · simpa [initParserState] using startStep_setLightVector v initParserState
      · simp [Msg.toXmlElement, treeEvents_node, List.map_map, Function.comp_def]
  | newTextVector v =>
      have hwfe : wfElems v.elements = true := by simpa [wfMsg] using h
      rw [wfElems, Bool.and_eq_true, decide_eq_true_eq] at hwfe
      refine roundTrip_vector_aux (Msg.newTextVector {v with elements := []}) _
        "newTextVector" (Msg.newAttrs v) v.elements ?_ rfl rfl hwfe.1 hwfe.2 rfl
        ?_ (by decide) (by decide)
      · simpa [initParserState] using startStep_newTextVector v initParserState
      · simp [Msg.toXmlElement, treeEvents_node, List.map_map, Function.comp_def]
  | newNumberVector v =>
      have hwfe : wfElems v.elements = true := by simpa [wfMsg] using h
      rw [wfElems, Bool.and_eq_true, decide_eq_true_eq] at hwfe
      refine roundTrip_vector_aux (Msg.newNumberVector {v with elements := []}) _
        "newNumberVector" (Msg.newAttrs v) v.elements ?_ rfl rfl hwfe.1 hwfe.2 rfl
        ?_ (by decide) (by decide)
      · simpa [initParserState] using startStep_newNumberVector v initParserState
      · simp [Msg.toXmlElement, treeEvents_node, List.map_map, Function.comp_def]
  | newSwitchVector v =>
      have hwfe : wfElems v.elements = true := by simpa [wfMsg] using h
      rw [wfElems, Bool.and_eq_true, decide_eq_true_eq] at hwfe
      refine roundTrip_vector_aux (Msg.newSwitchVector {v with elements := []}) _
        "newSwitchVector" (Msg.newAttrs v) v.elements ?_ rfl rfl hwfe.1 hwfe.2 rfl
        ?_ (by decide) (by decide)
      · simpa [initParserState] using startStep_newSwitchVector v initParserState
      · simp [Msg.toXmlElement, treeEvents_node, List.map_map, Function.comp_def]

lemma collectSwitchDiff_ok_spec {msg : List (String × SwitchState)} :
    ∀ {es : List (String × SwitchState)}
      {acc out : Finset String × Finset String × Finset String},
      collectSwitchDiff msg es acc = .ok out →
      ((∀ p ∈ es, p.2 = SwitchState.ON → p.1 ∈ out.1) ∧
        (∀ n ∈ acc.1, n ∈ out.1) ∧
        (∀ n ∈ out.2.1, n ∈ acc.2.1 ∨ n ∈ es.map Prod.fst))
  | [], ⟨a1, a2, a3⟩, out, h => by
      simp [collectSwitchDiff] at h
      subst h
      simp
  | (n, v) :: rest, ⟨a1, a2, a3⟩, out, h => by
      rw [collectSwitchDiff] at h
      match hl : lookupSwitch msg n with
      | .error e => rw [hl] at h; simp at h
      | .ok nv =>
          rw [hl] at h
          simp only at h
          have ih := collectSwitchDiff_ok_spec h
          obtain ⟨ih1, ih2, ih3⟩ := ih
          refine ⟨?_, ?_, ?_⟩
          · intro p hp hpon
            rcases List.mem_cons.mp hp with hp | hp
            · subst hp
              have hv : v = SwitchState.ON := hpon
              exact ih2 _ (by simp [hv])
            · exact ih1 p hp hpon
          · intro x hx
            refine ih2 _ ?_
            by_cases hvon : v = SwitchState.ON <;> simp [hvon, hx]
          · intro x hx
            rcases ih3 x hx with hx2 | hx2
            · by_cases hc : v ≠ nv ∧ nv = SwitchState.ON
              · rw [if_pos hc] at hx2
                rcases Finset.mem_insert.mp hx2 with rfl | hx3
                · simp
                · exact Or.inl hx3
              · rw [if_neg hc] at hx2
                exact Or.inl hx2
            · exact Or.inr (by simp [hx2])

lemma applySwitches_names (es : List (String × SwitchState)) (ton toff : Finset String) :
    (applySwitches es ton toff).map Prod.fst = es.map Prod.fst := by
  simp [applySwitches, List.map_map, Function.comp_def]

lemma onCount_applySwitches {es : List (String × SwitchState)} {ton toff : Finset String}
    (hcov : ∀ p ∈ es, p.2 = SwitchState.ON → p.1 ∈ ton ∨ p.1 ∈ toff) :
    onCount (applySwitches es ton toff) = (es.filter (fun p => p.1 ∈ ton)).length := by
  induction es with
  | nil => rfl
  | cons p rest ih =>
      have ihr := ih (fun q hq => hcov q (List.mem_cons_of_mem _ hq))
      by_cases h1 : p.1 ∈ ton
      · simp [applySwitches, onCount, List.filter_cons, h1] at ihr ⊢
        simpa [onCount, applySwitches] using ihr
      · by_cases h2 : p.1 ∈ toff
        · simp [applySwitches, onCount, List.filter_cons, h1, h2] at ihr ⊢
          simpa [onCount, applySwitches] using ihr
        · have hoff : p.2 = SwitchState.OFF := by
            cases hp2 : p.2 with
            | ON => exact absurd (hcov p (by simp) hp2) (by simp [h1, h2])
            | OFF => rfl
          simp [applySwitches, onCount, List.filter_cons, h1, h2, hoff] at ihr ⊢
          simpa [onCount, applySwitches] using ihr

lemma filter_mem_length {es : List (String × SwitchState)} {ton : Finset String}
    (hnd : (es.map Prod.fst).Nodup) (hsub : ∀ n ∈ ton, n ∈ es.map Prod.fst) :
    (es.filter (fun p => p.1 ∈ ton)).length = ton.card := by
  induction es generalizing ton with
  | nil =>
      have : ton = ∅ := Finset.eq_empty_of_forall_not_mem (fun n hn => by simpa using hsub n hn)
      simp [this]
  | cons p rest ih =>
      rw [List.map_cons, List.nodup_cons] at hnd
      by_cases h1 : p.1 ∈ ton
      · have hfeq : rest.filter (fun q => q.1 ∈ ton)
            = rest.filter (fun q => q.1 ∈ ton.erase p.1) := by
          apply List.filter_congr
          intro q hq
          have hqne : q.1 ≠ p.1 := by
            intro he
            exact hnd.1 (he ▸ List.mem_map_of_mem Prod.fst hq)
          simp [Finset.mem_erase, hqne]
        have hsub2 : ∀ n ∈ ton.erase p.1, n ∈ rest.map Prod.fst := by
          intro n hn
          have hne := (Finset.mem_erase.mp hn).1
          have hmm := hsub n (Finset.mem_of_mem_erase hn)
          rw [List.map_cons] at hmm
          rcases List.mem_cons.mp hmm with h | h
          · exact absurd h hne
          · exact h
        rw [List.filter_cons, if_pos (by simpa using h1), hfeq,
          List.length_cons, ih hnd.2 hsub2, Finset.card_erase_of_mem h1]
        have : 0 < ton.card := Finset.card_pos.mpr ⟨p.1, h1⟩
        omega
      · have hsub2 : ∀ n ∈ ton, n ∈ rest.map Prod.fst := by
          intro n hn
          have hmm := hsub n hn
          rw [List.map_cons] at hmm
          rcases List.mem_cons.mp hmm with h | h
          · exact absurd (h ▸ hn) h1
          · exact h
        rw [List.filter_cons, if_neg (by simpa using h1)]
        exact ih hnd.2 hsub2

lemma wrapper_ok_property {rule : SwitchRule} {f : Finset String → Finset String → Bool}
    {es msg : List (String × SwitchState)} {r : SwitchCallbackResult}
    (hrule : rule = SwitchRule.ONE_OF_MANY ∨ rule = SwitchRule.AT_MOST_ONE)
    (hw : switchCallbackWrapper rule f es msg = .ok r) :
    r.property = es ∨
      ∃ on0 ton : Finset String,
        (∀ p ∈ es, p.2 = SwitchState.ON → p.1 ∈ on0) ∧
        (∀ n ∈ ton, n ∈ es.map Prod.fst) ∧ ton.card ≤ 1 ∧
        (rule = SwitchRule.ONE_OF_MANY → ton.card = 1) ∧
        r.property = applySwitches es ton (on0 \ ton) := by
  unfold switchCallbackWrapper at hw
  match hc : collectSwitchDiff msg es (∅, ∅, ∅) with
  | .error e => rw [hc] at hw; simp [exceptBind_err] at hw
  | .ok (on0, ton, toff) =>
      rw [hc] at hw
      simp only [exceptBind_ok] at hw
      obtain ⟨hcov, -, hsubacc⟩ := collectSwitchDiff_ok_spec hc
      have hsub : ∀ n ∈ ton, n ∈ es.map Prod.fst := by
        intro n hn
        rcases hsubacc n hn with h | h
        · simp at h
        · exact h
      rcases hrule with rfl | rfl
      · by_cases houter : 0 < ton.card ∨ 0 < toff.card
        · rw [if_pos houter] at hw
          by_cases hrej : (toff ≠ ∅ ∧ ton = ∅) ∨ 1 < ton.card
          · simp only [hrej, if_true, pure, Except.pure] at hw
            cases hw
            exact Or.inl rfl
          · simp only [hrej, if_false, pure, Except.pure] at hw
            cases hw
            by_cases hsucc : f ton (on0 \ ton) = true
            · refine Or.inr ⟨on0, ton, hcov, hsub, ?_, ?_, ?_⟩
              · push_neg at hrej
                omega
              · intro _
                push_neg at hrej
                rcases houter with h | h
                · omega
                · have hton : ton ≠ ∅ := by
                    intro he
                    have := hrej.1 (by
                      intro hto
                      rw [hto] at h
                      simp at h)
                    exact this he
                  have : 0 < ton.card := Finset.card_pos.mpr (Finset.nonempty_of_ne_empty hton)
                  omega
              · simp [hsucc]
            · rw [Bool.not_eq_true] at hsucc
              simp [hsucc]
        · rw [if_neg houter] at hw
          simp only [pure, Except.pure] at hw
          cases hw
          exact Or.inl rfl
      · by_cases houter : 0 < ton.card ∨ 0 < toff.card
        · rw [if_pos houter] at hw
          by_cases hrej : 1 < ton.card
          · simp only [hrej, if_true, pure, Except.pure] at hw
            cases hw
            exact Or.inl rfl
          · simp only [hrej, if_false, pure, Except.pure] at hw
            cases hw
            by_cases hsucc : f ton (on0 \ ton) = true
            · refine Or.inr ⟨on0, ton, hcov, hsub, by omega, by simp, by simp [hsucc]⟩
            · rw [Bool.not_eq_true] at hsucc
              simp [hsucc]
        · rw [if_neg houter] at hw
          simp only [pure, Except.pure] at hw
          cases hw
          exact Or.inl rfl

lemma processNewSwitch_eq_ok {rule : SwitchRule} {es : List (String × SwitchState)}
    {step : List (String × SwitchState) × (Finset String → Finset String → Bool)}
    {r : SwitchCallbackResult}
    (hw : switchCallbackWrapper rule step.2 es step.1 = .ok r) :
    processNewSwitch rule es step = r.property := by
  unfold processNewSwitch
  rw [hw]

lemma processNewSwitch_eq_err {rule : SwitchRule} {es : List (String × SwitchState)}
    {step : List (String × SwitchState) × (Finset String → Finset String → Bool)}
    {e : String}
    (hw : switchCallbackWrapper rule step.2 es step.1 = .error e) :
    processNewSwitch rule es step = es := by
  unfold processNewSwitch
  rw [hw]

lemma processNewSwitch_names {rule : SwitchRule} (hrule : rule = SwitchRule.ONE_OF_MANY
      ∨ rule = SwitchRule.AT_MOST_ONE)
    (es : List (String × SwitchState))
    (step : List (String × SwitchState) × (Finset String → Finset String → Bool)) :
    (processNewSwitch rule es step).map Prod.fst = es.map Prod.fst := by
  match hw : switchCallbackWrapper rule step.2 es step.1 with
  | .error e => rw [processNewSwitch_eq_err hw]
  | .ok r =>
      rw [processNewSwitch_eq_ok hw]
      rcases wrapper_ok_property hrule hw with h | ⟨on0, ton, -, -, -, -, h⟩ <;>
        simp [h, applySwitches_names]

lemma processNewSwitch_count {rule : SwitchRule} (hrule : rule = SwitchRule.ONE_OF_MANY
      ∨ rule = SwitchRule.AT_MOST_ONE)
    {es : List (String × SwitchState)} (hnd : (es.map Prod.fst).Nodup)
    (step : List (String × SwitchState) × (Finset String → Finset String → Bool)) :
    ((rule = SwitchRule.ONE_OF_MANY → onCount es = 1 →
        onCount (processNewSwitch rule es step) = 1) ∧
      (onCount es ≤ 1 → onCount (processNewSwitch rule es step) ≤ 1)) := by
  match hw : switchCallbackWrapper rule step.2 es step.1 with
  | .error e =>
      rw [processNewSwitch_eq_err hw]
      exact ⟨fun _ h => h, fun h => h⟩
  | .ok r =>
      rw [processNewSwitch_eq_ok hw]
      rcases wrapper_ok_property hrule hw with h | ⟨on0, ton, hcov, hsub, hle, hoom, h⟩
      · rw [h]
        exact ⟨fun _ hx => hx, fun hx => hx⟩
      · have hcov2 : ∀ p ∈ es, p.2 = SwitchState.ON → p.1 ∈ ton ∨ p.1 ∈ on0 \ ton := by
          intro p hp hon
          by_cases ht : p.1 ∈ ton
          · exact Or.inl ht
          · exact Or.inr (Finset.mem_sdiff.mpr ⟨hcov p hp hon, ht⟩)
        have hcount : onCount r.property = ton.card := by
          rw [h, onCount_applySwitches hcov2, filter_mem_length hnd hsub]
        constructor
        · intro hr _
          rw [hcount, hoom hr]
        · intro _
          rw [hcount]
          exact hle

/-- Switch-rule safety (C4): processing any sequence of incoming
`newSwitchVector` messages through the rule wrapper, with arbitrary
user-handler outcomes, keeps a `OneOfMany` vector at exactly one `On`
element and an `AtMostOne` vector at most one `On` element.  Messages
that make the wrapper raise (an element missing from the message)
leave the property untouched, so the invariant survives them too. -/
theorem switch_rule_safety (es : List (String × SwitchState))
    (hnd : (es.map Prod.fst).Nodup)
    (steps : List (List (String × SwitchState) × (Finset String → Finset String → Bool))) :
    (onCount es = 1 →
      onCount (steps.foldl (processNewSwitch SwitchRule.ONE_OF_MANY) es) = 1) ∧
    (onCount es ≤ 1 →
      onCount (steps.foldl (processNewSwitch SwitchRule.AT_MOST_ONE) es) ≤ 1) := by
  induction steps generalizing es with
  | nil => exact ⟨fun h => h, fun h => h⟩
  | cons s rest ih =>
      constructor
      · intro h1
        have hstep := (processNewSwitch_count (Or.inl rfl) hnd s).1 rfl h1
        have hnd2 : ((processNewSwitch SwitchRule.ONE_OF_MANY es s).map Prod.fst).Nodup := by
          rw [processNewSwitch_names (Or.inl rfl)]
          exact hnd
        exact (ih _ hnd2).1 hstep
      · intro h1
        have hstep := (processNewSwitch_count (Or.inr rfl) hnd s).2 h1
        have hnd2 : ((processNewSwitch SwitchRule.AT_MOST_ONE es s).map Prod.fst).Nodup := by
          rw [processNewSwitch_names (Or.inr rfl)]
          exact hnd
        exact (ih _ hnd2).2 hstep

/-- C1 (counterexample).  The round-trip law fails as stated: the
serialization of `Message{message="hello"}` is a well-formed
`<message message="hello"/>` element, but the parser has no branch for
the `message` tag (`start_xml_element_handler` falls through to the
"Unhandled tag" log), so feeding the events of the serialized message
to a fresh parser emits nothing at all instead of exactly one message
equal to the original. -/
theorem roundTrip_message_counterexample :
    roundTrip (Msg.message ⟨"hello", none, none⟩) = (initParserState, [], none) := by
  have hev : treeEvents (Msg.message ⟨"hello", none, none⟩).toXmlElement
      = [.startElement "message" [("message", "hello")],
          .endElement "message"] := by
    simp [Msg.toXmlElement, Msg.messageAttrs, optAttr, treeEvents_leaf]
  rw [roundTrip, hev]
  decide

/-- C1 (amended).  Round-trip law for every reachable message except
`Message` (never parsed), `DelProperty` without a `timestamp` (the
parser reads `tag_attributes['timestamp']` unconditionally), light
elements carrying a value (`OneLight.value_from_text` parses with the
wrong enum) and text element values that are empty or not
whitespace-stripped (the end handler strips body text and maps the
empty body to unset): serializing and parsing yields exactly one queued
message equal to the original and returns the parser to its initial
state. -/
theorem parse_serialize_roundTrip_law (m : Msg) (h : wfMsg m = true) :
    roundTrip m = (initParserState, [some m], none) :=
  parse_serialize_roundTrip m h

/-- C1 (witness): the round-trip law applied to the concrete
`DefNumberVector` of the repository's own parser tests. -/
theorem parse_serialize_roundTrip_law_witness :
    wfMsg (Msg.defNumberVector
      { device := "test", name := "prop",
        timestamp := some ⟨"2019-08-13T22:45:17.867692Z"⟩,
        elements := [.defNumber "value" (some ⟨"0.0", by decide⟩) none "%g"
          ⟨"0.0", by decide⟩ ⟨"0.0", by decide⟩ ⟨"0.0", by decide⟩],
        state := .IDLE, perm := .READ_WRITE }) = true ∧
    roundTrip (Msg.defNumberVector
      { device := "test", name := "prop",
        timestamp := some ⟨"2019-08-13T22:45:17.867692Z"⟩,
        elements := [.defNumber "value" (some ⟨"0.0", by decide⟩) none "%g"
          ⟨"0.0", by decide⟩ ⟨"0.0", by decide⟩ ⟨"0.0", by decide⟩],
        state := .IDLE, perm := .READ_WRITE })
      = (initParserState, [some (Msg.defNumberVector
      { device := "test", name := "prop",
        timestamp := some ⟨"2019-08-13T22:45:17.867692Z"⟩,
        elements := [.defNumber "value" (some ⟨"0.0", by decide⟩) none "%g"
          ⟨"0.0", by decide⟩ ⟨"0.0", by decide⟩ ⟨"0.0", by decide⟩],
        state := .IDLE, perm := .READ_WRITE })], none) :=
  ⟨by decide, parse_serialize_roundTrip_law _ (by decide)⟩

/-- C2.  The claim is right and the code is wrong: a light element's
value is supposed to be a `PropertyState` (the dataclass annotation,
`validate`, and the spec all say so, and `parsePropertyState` accepts
all four wire strings), but `OneLight.value_from_text` (messages.py
line 190) parses the body with `SwitchState`, so `set_from_text` raises
`ValueError` on every one of the four wire strings for both `oneLight`
and `defLight` elements instead of storing the `PropertyState`. -/
theorem oneLight_value_from_text_rejects_property_states :
    ((IndiElementMessage.oneLight "l" none).setFromText (some "Idle")
        = .error "ValueError: no enum instance in SwitchState") ∧
    ((IndiElementMessage.oneLight "l" none).setFromText (some "Ok")
        = .error "ValueError: no enum instance in SwitchState") ∧
    ((IndiElementMessage.oneLight "l" none).setFromText (some "Busy")
        = .error "ValueError: no enum instance in SwitchState") ∧
    ((IndiElementMessage.oneLight "l" none).setFromText (some "Alert")
        = .error "ValueError: no enum instance in SwitchState") ∧
    ((IndiElementMessage.defLight "l" none none).setFromText (some "Idle")
        = .error "ValueError: no enum instance in SwitchState") ∧
    ((IndiElementMessage.defLight "l" none none).setFromText (some "Alert")
        = .error "ValueError: no enum instance in SwitchState") ∧
    parsePropertyState "Idle" = .ok .IDLE ∧
    parsePropertyState "Ok" = .ok .OK ∧
    parsePropertyState "Busy" = .ok .BUSY ∧
    parsePropertyState "Alert" = .ok .ALERT := by
  decide

/-- C3.  The claim is right and the code is wrong: on a `OneOfMany`
vector `first=On, second=Off`, an incoming message turning only
`second` on while omitting `first` makes the wrapper's diff loop
evaluate `new_message["first"]` and raise `KeyError` — contradicting
the source's own comment ("Even if the newSwitchVector message does not
contain all elements of the switch we want to do something sensible")
— so the user handler is never invoked.  When the client does include
every element, the intended behavior shows: the handler is invoked and
the previously-on `first` lands in `switches_turned_off`. -/
theorem switch_partial_message_keyerror :
    switchCallbackWrapper .ONE_OF_MANY (fun _ _ => true)
        [("first", .ON), ("second", .OFF)] [("second", .ON)]
      = .error "KeyError: no element name first in property" ∧
    switchCallbackWrapper .ONE_OF_MANY (fun _ _ => true)
        [("first", .ON), ("second", .OFF)] [("first", .ON), ("second", .ON)]
      = .ok ⟨[("first", .OFF), ("second", .ON)], some ({"second"}, {"first"}), true⟩ := by
  decide

/-- C4.  Switch-rule safety: after any sequence of `newSwitchVector`
messages through the rule wrapper, with arbitrary user-handler results,
a `OneOfMany` vector that starts with exactly one `On` element still
has exactly one, and an `AtMostOne` vector that starts with at most one
still has at most one.  Messages that make the wrapper raise leave the
elements untouched (the `KeyError` fires before any mutation), so they
preserve the invariant as well. -/
theorem switch_rule_safety_invariant (es : List (String × SwitchState))
    (hnd : (es.map Prod.fst).Nodup)
    (steps : List (List (String × SwitchState) × (Finset String → Finset String → Bool))) :
    (onCount es = 1 →
      onCount (steps.foldl (processNewSwitch SwitchRule.ONE_OF_MANY) es) = 1) ∧
    (onCount es ≤ 1 →
      onCount (steps.foldl (processNewSwitch SwitchRule.AT_MOST_ONE) es) ≤ 1) :=
  switch_rule_safety es hnd steps

/-- C4 (witness): a two-element `OneOfMany` vector keeps exactly one
`On` element across a message flipping the selection, and an
`AtMostOne` vector stays at most one across the same sequence. -/
theorem switch_rule_safety_invariant_witness :
    onCount ([([("a", SwitchState.OFF), ("b", SwitchState.ON)], fun _ _ => true)].foldl
        (processNewSwitch SwitchRule.ONE_OF_MANY) [("a", SwitchState.ON), ("b", SwitchState.OFF)]) = 1 ∧
    onCount ([([("a", SwitchState.OFF), ("b", SwitchState.ON)], fun _ _ => true)].foldl
        (processNewSwitch SwitchRule.AT_MOST_ONE) [("a", SwitchState.ON), ("b", SwitchState.OFF)]) ≤ 1 :=
  ⟨(switch_rule_safety_invariant _ (by decide) _).1 (by decide),
    (switch_rule_safety_invariant _ (by decide) _).2 (by decide)⟩

/-- C5.  The claim is right and the code is wrong for the spec's own
scenario: on `first=On, second=Off, third=Off` with rule `OneOfMany`,
the message `second=On, third=On` (the elements it names) makes the
diff loop raise `KeyError` on the omitted `first`, so no re-asserting
Set-message is sent (the handler is indeed not invoked and the values
are indeed unchanged, but by exception rather than by rejection).  Only
when the message carries every element does the multiple-On rejection
path run: handler not invoked, values unchanged, update re-asserted. -/
theorem switch_multi_on_partial_message_keyerror :
    switchCallbackWrapper .ONE_OF_MANY (fun _ _ => true)
        [("first", .ON), ("second", .OFF), ("third", .OFF)]
        [("second", .ON), ("third", .ON)]
      = .error "KeyError: no element name first in property" ∧
    switchCallbackWrapper .ONE_OF_MANY (fun _ _ => true)
        [("first", .ON), ("second", .OFF), ("third", .OFF)]
        [("first", .ON), ("second", .ON), ("third", .ON)]
      = .ok ⟨[("first", .ON), ("second", .OFF), ("third", .OFF)], none, true⟩ := by
  decide

/-- C6.  The claim is right and the code is wrong: the `delProperty`
parse branch reads `tag_attributes['timestamp']` unconditionally
(parser.py line 140), so the bytes `<delProperty device="A"/>` and
`<delProperty/>` — which carry no timestamp — raise `KeyError` out of
the handler and no `DelProperty` message is ever emitted or applied.
The client-side deletion logic itself does what the claim says when
handed the messages: deleting device `A` removes its two properties and
leaves `B.p3`, and a wildcard delete removes all devices. -/
theorem delProperty_missing_timestamp_keyerror :
    runParser initParserState
        [.startElement "delProperty" [("device", "A")], .endElement "delProperty"]
      = (initParserState, [], some "KeyError: timestamp") ∧
    runParser initParserState
        [.startElement "delProperty" [], .endElement "delProperty"]
      = (initParserState, [], some "KeyError: timestamp") ∧
    handleDelProperty [("A", ["p1", "p2"]), ("B", ["p3"])] (some "A") none
      = .ok [("A", []), ("B", ["p3"])] ∧
    handleDelProperty [("A", ["p1", "p2"]), ("B", ["p3"])] none none = .ok [] := by
  decide

/-- C7.  The claim is right and the code is wrong: after the parser
resets, feeding the well-formed element `<message message="hello"/>`
emits nothing — `start_xml_element_handler` has no branch for the
`message` tag (it falls through to the "Unhandled tag" debug log), so
no `Message` ever reaches the output queue, against the spec's parser
recovery scenario. -/
theorem message_element_not_emitted :
    runParser initParserState
        [.startElement "message" [("message", "hello")], .endElement "message"]
      = (initParserState, [], none) := by
  decide

/-- C8.  Reconnection replay: once `_has_connected_once` is set, every
`Connection` event re-sends `getProperties` for each interest-set entry
— collapsed to a single catch-all when `(ALL, ALL)` is registered —
while the first connection event only sets the flag and sends nothing,
and replay leaves the interest set unchanged. -/
theorem reconnection_replay (ints : List (Option String × Option String)) :
    ((none, none) ∈ ints →
      (handleConnectionStatusChange ⟨true, ints⟩ .CONNECTED).2
        = [{ device := none, name := none, version := some "1.7" }]) ∧
    ((none, none) ∉ ints →
      (handleConnectionStatusChange ⟨true, ints⟩ .CONNECTED).2
        = ints.map (fun p => { device := p.1, name := p.2, version := some "1.7" })) ∧
    handleConnectionStatusChange ⟨false, ints⟩ .CONNECTED = (⟨true, ints⟩, []) ∧
    (handleConnectionStatusChange ⟨true, ints⟩ .CONNECTED).1 = ⟨true, ints⟩ := by
  refine ⟨fun h => by simp [handleConnectionStatusChange, h],
    fun h => by simp [handleConnectionStatusChange, h],
    by simp [handleConnectionStatusChange], ?_⟩
  by_cases h : (none, none) ∈ ints <;> simp [handleConnectionStatusChange, h]

/-- C8 (witness): with the interest set left by
`get_properties("dev.p1")`, a reconnection sends exactly one
`getProperties` with `device="dev"` and `name="p1"`. -/
theorem reconnection_replay_witness :
    ((none, none) ∉ ([(some "dev", some "p1")] : List (Option String × Option String))) ∧
    (registerInterest ⟨true, []⟩ (some "dev") (some "p1")).interested
      = [(some "dev", some "p1")] ∧
    (handleConnectionStatusChange ⟨true, [(some "dev", some "p1")]⟩ .CONNECTED).2
      = [{ device := some "dev", name := some "p1", version := some "1.7" }] :=
  ⟨by decide, by decide, by
    have h := (reconnection_replay [(some "dev", some "p1")]).2.1 (by decide)
    simpa using h⟩

/-- C9.  The claim is right and the code is wrong: client-side
`dispatch_callbacks` has no `try` around `cb(message)` (client.py line
292), so when the first matching registered callback raises, the
exception aborts the traversal and the second matching callback is
never invoked — the remaining tags are missing from the invoked list —
while the transport-level dispatcher (the cited transports.py code)
does catch per callback and runs every one. -/
theorem client_callback_exception_aborts_dispatch :
    clientDispatchCallbacks [(none, none, true, 0), (none, none, false, 1)]
        (some "d") (some "p")
      = ([0], some "Exception escaped dispatch_callbacks") ∧
    transportDispatchCallbacks [(true, 0), (false, 1)] = [0, 1] := by
  decide

/-- C10 (counterexample).  On a property with elements `x` and `y`,
`make_new_property` called with the single assignment `x := "c"`
produces a New-message containing only `x`: `y` is omitted, refuting
the claim that the message contains an entry for every element of the
property. -/
theorem make_new_property_omits_unnamed_elements :
    make_new_property [("x", "a"), ("y", "b")] (fun _ => true) [("x", "c")]
      = .ok [("x", "c")] ∧
    ([("x", "a"), ("y", "b")].map Prod.fst).contains "y" = true ∧
    (["x"].contains "y") = false := by
  decide

/-- C10 (amended).  For every property and every assignment list whose
names all exist on the property and whose values all validate,
`make_new_property` builds a New-message carrying exactly the assigned
elements in order — not all elements of the vector, for Number and Text
just as for Switch; the source comment quotes the INDI whitepaper
requirement and deliberately declines to follow it. -/
theorem make_new_property_sends_exactly_assignments {α : Type}
    (propElements : List (String × α)) (validate : α → Bool)
    (kwargs : List (String × α))
    (hnames : ∀ p ∈ kwargs, (propElements.map Prod.fst).contains p.1 = true)
    (hvalid : ∀ p ∈ kwargs, validate p.2 = true) :
    make_new_property propElements validate kwargs = .ok kwargs := by
  induction kwargs with
  | nil => rfl
  | cons p rest ih =>
      obtain ⟨k, v⟩ := p
      have hk : (propElements.map Prod.fst).contains k = true :=
        hnames (k, v) (List.mem_cons_self _ _)
      have hv : validate v = true := hvalid (k, v) (List.mem_cons_self _ _)
      have hr := ih (fun q hq => hnames q (List.mem_cons_of_mem _ hq))
        (fun q hq => hvalid q (List.mem_cons_of_mem _ hq))
      rw [make_new_property, hk, hv, hr]
      simp [exceptBind_ok]

/-- C10 (witness): assigning only `y` on a two-element text property
yields a New-message with exactly that element. -/
theorem make_new_property_sends_exactly_assignments_witness :
    make_new_property [("x", "a"), ("y", "b")] (fun _ => true) [("y", "q")]
      = .ok [("y", "q")] :=
  make_new_property_sends_exactly_assignments _ _ _ (by decide) (by decide)
